import Mathlib

/-
  Verification development for the DelugeFlow Deluge RPC client core.

  The definitions below are a shallow embedding of the TypeScript sources:
    - src/deluge/DelugeRequest.ts   (class DelugeRequest)
    - src/deluge/DelugePlugins.ts   (classes DelugePlugins and DelugeAuth)
    - src/deluge/DelugeTorrent.ts   (class DelugeTorrent)
    - src/deluge/DelugeDaemon.ts    (class DelugeDaemon)
  Asynchronous recursion through the request engine is modelled with an
  explicit fuel parameter; running out of fuel is reported as a distinct
  artificial outcome. HTTP transport is modelled as a deterministic
  function from method name and parameters to an HTTP response; transport
  level exceptions and timeouts are outside the model. Logging and the
  backoff sleep have no observable effect and are omitted.
-/

namespace DelugeFlow

/-- JSON-like runtime values mirroring the untyped payloads handled by the
TypeScript code. -/
inductive JVal where
  | jnull
  | jbool (b : Bool)
  | jnum (n : Int)
  | jstr (s : String)
  | jarr (xs : List JVal)
  | jobj (fields : List (String × JVal))
deriving Repr

mutual

/-- Structural equality test on values (the derived instance is unavailable
for this nested inductive). -/
def JVal.beq : JVal → JVal → Bool
  | .jnull, .jnull => true
  | .jbool a, .jbool b => a == b
  | .jnum a, .jnum b => a == b
  | .jstr a, .jstr b => a == b
  | .jarr xs, .jarr ys => JVal.beqList xs ys
  | .jobj fs, .jobj gs => JVal.beqFields fs gs
  | _, _ => false

def JVal.beqList : List JVal → List JVal → Bool
  | [], [] => true
  | x :: xs, y :: ys => JVal.beq x y && JVal.beqList xs ys
  | _, _ => false

def JVal.beqFields : List (String × JVal) → List (String × JVal) → Bool
  | [], [] => true
  | (k, v) :: fs, (k2, v2) :: gs => k == k2 && JVal.beq v v2 && JVal.beqFields fs gs
  | _, _ => false

end

instance : BEq JVal := ⟨JVal.beq⟩

/-- JavaScript truthiness of a value. -/
def JVal.truthy : JVal → Bool
  | .jnull => false
  | .jbool b => b
  | .jnum n => n != 0
  | .jstr s => s != ""
  | .jarr _ => true
  | .jobj _ => true

/-- Does one character list start with another (needle as second argument)? -/
def startsWithList : List Char → List Char → Bool
  | _, [] => true
  | [], _ :: _ => false
  | c :: cs, d :: ds => c == d && startsWithList cs ds

/-- Substring test on character lists (needle as second argument). -/
def containsList : List Char → List Char → Bool
  | [], needle => needle.isEmpty
  | l@(_ :: t), needle => startsWithList l needle || containsList t needle

/-- JavaScript String.prototype.includes. -/
def strContains (haystack needle : String) : Bool :=
  containsList haystack.toList needle.toList

/-- The fixed auth-error substrings of isAuthErrorMessage in DelugeErrors.ts. -/
def authErrorSubstrings : List String :=
  ["Not authenticated", "Invalid session", "No session",
   "Authentication required", "Login required"]

/-- ASCII lower-casing of one character; the patterns compared
case-insensitively by the source are ASCII-only. -/
def asciiLowerChar (c : Char) : Char :=
  if 65 ≤ c.toNat ∧ c.toNat ≤ 90 then Char.ofNat (c.toNat + 32) else c

/-- ASCII lower-casing of a string (models toLowerCase on the ASCII inputs
the auth-error classifier deals with). -/
def strToLower (s : String) : String :=
  String.mk (s.toList.map asciiLowerChar)

/-- isAuthErrorMessage from DelugeErrors.ts: case-insensitive substring match
against the fixed pattern list. -/
def isAuthErrorMessage (message : String) : Bool :=
  authErrorSubstrings.any fun pat => strContains (strToLower message) (strToLower pat)

/-- The error member of a JSON-RPC response payload. The message field is
optional because the TypeScript code defensively handles a missing message. -/
structure RpcError where
  message : Option String := none
  code : Int := 0
deriving Repr, DecidableEq

/-- A parsed JSON-RPC response payload. The status field models the
out-of-band payload.status marker the server may attach. -/
structure DelugeResponse where
  result : JVal := .jnull
  error : Option RpcError := none
  status : Option Int := none
deriving Repr

/-- An HTTP response: status code, the two session headers the client reads,
and the parsed JSON body. -/
structure HttpResponse where
  status : Nat := 200
  setCookie : Option String := none
  csrfHeader : Option String := none
  body : DelugeResponse := {}
deriving Repr

/-- fetch Response.ok: status in the range 200 to 299. -/
def HttpResponse.okStatus (r : HttpResponse) : Bool :=
  200 ≤ r.status && r.status ≤ 299

/-- The error taxonomy of DelugeErrors.ts, restricted to the classes the
embedded code paths construct. -/
inductive Err where
  | network (message : String) (statusCode : Option Nat)
  | auth (message : String)
  | generic (message : String)
  | daemonErr (message : String) (cause : Option Err)
  | torrent (message : String) (code : JVal)
deriving Repr

/-- The session state held by DelugeAuth, together with the constructor
arguments that influence behaviour. -/
structure AuthState where
  serverPass : String := ""
  sessionCookie : Option String := none
  sessionId : Option String := none
  csrfToken : Option String := none
  isValidating : Bool := false
deriving Repr, DecidableEq

/-- DelugeAuth.clearSession: all three session fields are nulled together. -/
def clearSession (st : AuthState) : AuthState :=
  { st with sessionCookie := none, sessionId := none, csrfToken := none }

/-- Scan for a session id in a Set-Cookie header, mirroring the regex
that captures at least one non-semicolon character after the marker
underscore session underscore id equals sign (searching later occurrences
when a match would capture nothing, as regex backtracking does). -/
def sessionIdScan : List Char → Option (List Char)
  | [] => none
  | l@(_ :: t) =>
    if startsWithList l "_session_id=".toList then
      let rest := l.drop "_session_id=".length
      let captured := rest.takeWhile fun c => c != ';'
      if captured.isEmpty then sessionIdScan t else some captured
    else sessionIdScan t

/-- DelugeAuth.updateSessionCookie: store the raw Set-Cookie value and, when
present, the extracted session id. -/
def updateSessionCookie (st : AuthState) (setCookie : String) : AuthState :=
  let st1 := { st with sessionCookie := some setCookie }
  match sessionIdScan setCookie.toList with
  | some sid => { st1 with sessionId := some (String.mk sid) }
  | none => st1

/-- DelugeAuth.updateCsrfToken. -/
def updateCsrfToken (st : AuthState) (tok : String) : AuthState :=
  { st with csrfToken := some tok }

/-- DelugeRequest.extractSessionData: store Set-Cookie and X-CSRF-Token
response headers into the session before the status is evaluated. -/
def extractSessionData (st : AuthState) (resp : HttpResponse) : AuthState :=
  let st1 := match resp.setCookie with
    | some c => updateSessionCookie st c
    | none => st
  match resp.csrfHeader with
  | some t => updateCsrfToken st1 t
  | none => st1

/-- DelugeRequest.buildHeaders of src/deluge/DelugeRequest.ts: always the two
JSON content headers; the CSRF token, when present, is sent as the
X-Deluge-Token header; no Cookie header is attached (the source comments
that Cookie is a forbidden header for fetch and handles cookies elsewhere). -/
def buildHeaders (st : AuthState) : List (String × String) :=
  let base := [("Content-Type", "application/json"), ("Accept", "application/json")]
  match st.csrfToken with
  | some tok => base ++ [("X-Deluge-Token", tok)]
  | none => base

/-- isAuthError from DelugeAuth: false without an error member, else the
message (defaulting to the empty string) run through isAuthErrorMessage. -/
def isAuthError (p : DelugeResponse) : Bool :=
  match p.error with
  | none => false
  | some e => isAuthErrorMessage (e.message.getD "")

/-- JavaScript string-or-fallback: the or operator applied to an optional
string and a default, treating the empty string as falsy. -/
def jsOrElse (s : Option String) (fallback : String) : String :=
  match s with
  | some m => if m = "" then fallback else m
  | none => fallback

/-- JavaScript truthiness of an optional string member. -/
def msgTruthy : Option String → Bool
  | some m => m != ""
  | none => false

/-- The deterministic HTTP transport: a response for every method name and
parameter list. -/
def Server : Type := String → List JVal → HttpResponse

/-- The maxRetries instance field of DelugeRequest. -/
def maxRetries : Nat := 2

/-- The mutually recursive entry points of the request engine: the request
method of DelugeRequest and the checkSession and login methods of DelugeAuth
(the fresh-login tail of login is split into its own entry point). -/
inductive Call where
  | request (method : String) (params : List JVal) (silent : Bool) (retryAttempt : Nat)
  | checkSession
  | login (silent : Bool)
  | loginFresh (silent : Bool)
deriving Repr

/-- The outcome of one entry point: a returned payload, a returned boolean,
a thrown error, or exhaustion of the artificial fuel bound. -/
inductive Outcome where
  | payload (p : DelugeResponse)
  | boolRes (b : Bool)
  | thrown (e : Err)
  | fuelOut
deriving Repr

/-- Result of running an entry point: outcome, final session state, and the
sequence of HTTP posts made (method name and parameters, in order). -/
structure RunResult where
  outcome : Outcome
  state : AuthState
  posts : List (String × List JVal)
deriving Repr

/-- Fueled interpreter for DelugeRequest.request and the DelugeAuth methods
it calls. Faithful to src/deluge/DelugeRequest.ts: the HTTP-403 branch for
non-torrent methods re-enters request without the retry counter (the source
passes only method, params and silent there), while the payload auth-error
branch re-enters with the counter incremented and throws once the counter
reaches maxRetries. -/
def exec (srv : Server) : Nat → Call → AuthState → RunResult
  | 0, _, st => ⟨.fuelOut, st, []⟩
  | fuel + 1, .request method params silent retryAttempt, st =>
    let resp := srv method params
    let st1 := extractSessionData st resp
    if ! resp.okStatus then
      if resp.status == 403 && ! strContains method "torrent" then
        let r1 := exec srv fuel .checkSession st1
        match r1.outcome with
        | .fuelOut => ⟨.fuelOut, r1.state, (method, params) :: r1.posts⟩
        | .thrown e => ⟨.thrown e, r1.state, (method, params) :: r1.posts⟩
        | _ =>
          let r2 := exec srv fuel (.request method params silent 0) r1.state
          ⟨r2.outcome, r2.state, (method, params) :: (r1.posts ++ r2.posts)⟩
      else
        ⟨.thrown (.network ("HTTP error! status: " ++ toString resp.status) (some resp.status)),
          st1, [(method, params)]⟩
    else
      let payload := resp.body
      match payload.error with
      | some e =>
        if strContains (e.message.getD "") "already in session" then
          ⟨.payload payload, st1, [(method, params)]⟩
        else if isAuthErrorMessage (e.message.getD "") then
          if maxRetries ≤ retryAttempt then
            ⟨.thrown (.auth "Authentication failed after multiple retries"), st1,
              [(method, params)]⟩
          else
            let st2 := clearSession st1
            let r1 := exec srv fuel (.login silent) st2
            match r1.outcome with
            | .thrown err => ⟨.thrown err, r1.state, (method, params) :: r1.posts⟩
            | .fuelOut => ⟨.fuelOut, r1.state, (method, params) :: r1.posts⟩
            | _ =>
              let r2 := exec srv fuel (.request method params silent (retryAttempt + 1)) r1.state
              ⟨r2.outcome, r2.state, (method, params) :: (r1.posts ++ r2.posts)⟩
        else
          ⟨.thrown (.generic (jsOrElse e.message "Unknown server error")), st1,
            [(method, params)]⟩
      | none =>
        if payload.status == some 403 then
          ⟨.thrown (.network "Access denied by remote server" (some 403)), st1,
            [(method, params)]⟩
        else
          ⟨.payload payload, st1, [(method, params)]⟩
  | fuel + 1, .checkSession, st =>
    let r := exec srv fuel (.request "auth.check_session" [] true 0) st
    match r.outcome with
    | .payload p => ⟨.boolRes (p.result == .jbool true), r.state, r.posts⟩
    | .thrown _ => ⟨.boolRes false, r.state, r.posts⟩
    | _ => ⟨.fuelOut, r.state, r.posts⟩
  | fuel + 1, .login silent, st =>
    if st.serverPass == "" then
      ⟨.thrown (.auth "No password available"), st, []⟩
    else if st.isValidating then
      exec srv fuel (.loginFresh silent) (clearSession st)
    else
      let r := exec srv fuel .checkSession st
      match r.outcome with
      | .boolRes true => ⟨.boolRes true, r.state, r.posts⟩
      | .boolRes false =>
        let r2 := exec srv fuel (.loginFresh silent) r.state
        ⟨r2.outcome, r2.state, r.posts ++ r2.posts⟩
      | .thrown e => ⟨.thrown e, r.state, r.posts⟩
      | _ => ⟨.fuelOut, r.state, r.posts⟩
  | fuel + 1, .loginFresh silent, st =>
    let st1 := clearSession st
    let r := exec srv fuel (.request "auth.login" [.jstr st1.serverPass] silent 0) st1
    match r.outcome with
    | .payload p =>
      if p.result == .jbool true then ⟨.boolRes true, r.state, r.posts⟩
      else ⟨.thrown (.auth "Login failed - check your Deluge password"), r.state, r.posts⟩
    | .thrown e => ⟨.thrown e, r.state, r.posts⟩
    | _ => ⟨.fuelOut, r.state, r.posts⟩

/-- Number of HTTP posts of a given method in a post trace. -/
def countPosts (m : String) (posts : List (String × List JVal)) : Nat :=
  (posts.filter fun q => q.1 == m).length

/-- Method names of a post trace, in order. -/
def postMethods (posts : List (String × List JVal)) : List String :=
  posts.map Prod.fst

/-- The JSON-RPC request envelope built by DelugeRequest.request; its id is
the string form of the clock value at the time of the call (Date.now()). -/
structure RpcRequest where
  method : String
  params : List JVal
  id : String
deriving Repr

/-- requestBody construction from DelugeRequest.request. -/
def mkRequestBody (method : String) (params : List JVal) (now : Nat) : RpcRequest :=
  { method := method, params := params, id := toString now }

/-- The wire envelopes of a run, given the millisecond clock observed at each
post (the i-th post reads the clock at index i). -/
def wireRequests (clock : Nat → Nat) (posts : List (String × List JVal)) : List RpcRequest :=
  List.zipWith (fun i q => mkRequestBody q.1 q.2 (clock i)) (List.range posts.length) posts

/-- Result of an operation layered on the request engine. -/
inductive DRes (α : Type) where
  | ok (a : α)
  | thrown (e : Err)
  | fuelOut
deriving Repr

/-- Run of an auth, plugin or torrent layer operation: result, final session
state and post trace. -/
structure Run (α : Type) where
  res : DRes α
  auth : AuthState
  posts : List (String × List JVal)
deriving Repr

/-- DelugeAuth.deleteSession: a silent auth.delete_session call; on success
the session is cleared; a failure is logged and rethrown. -/
def deleteSession (srv : Server) (fuel : Nat) (auth : AuthState) : Run Unit :=
  let r := exec srv fuel (.request "auth.delete_session" [] true 0) auth
  match r.outcome with
  | .payload _ => ⟨.ok (), clearSession r.state, r.posts⟩
  | .thrown e => ⟨.thrown e, r.state, r.posts⟩
  | _ => ⟨.fuelOut, r.state, r.posts⟩

/-- Array indexing of a value, null when absent (used for the tuple accesses
on daemon host entries and host-status results). -/
def JVal.index (v : JVal) (i : Nat) : JVal :=
  match v with
  | .jarr xs => (xs.get? i).getD .jnull
  | _ => .jnull

/-- Property access returning null for a missing key or a non-object. -/
def JVal.getField (v : JVal) (k : String) : JVal :=
  match v with
  | .jobj fs =>
    match fs.find? fun f => f.1 == k with
    | some f => f.2
    | none => .jnull
  | _ => .jnull

/-- JavaScript template-string conversion of a value. Arrays and objects are
approximated by fixed strings; the embedded code paths only ever convert
strings. -/
def JVal.display : JVal → String
  | .jnull => "null"
  | .jbool b => if b then "true" else "false"
  | .jnum n => toString n
  | .jstr s => s
  | .jarr _ => ""
  | .jobj _ => "[object Object]"

/-- The daemonInfo record built by DelugeDaemon.buildDaemonInfo. -/
structure DaemonInfo where
  status : JVal
  port : JVal
  ip : JVal
  host_id : JVal
  version : JVal
deriving Repr

/-- The instance state of DelugeDaemon. -/
structure DaemonState where
  daemonInfo : Option DaemonInfo := none
  daemonHosts : List JVal := []
  connectAttempts : Nat := 0
deriving Repr

/-- Run of a DelugeDaemon operation: result, session state, daemon instance
state and post trace. -/
structure DOut (α : Type) where
  res : DRes α
  auth : AuthState
  daemon : DaemonState
  posts : List (String × List JVal)
deriving Repr

/-- payload.result or-else the empty list, for an array or falsy result (the
source would iterate any other truthy value as an iterable, which no embedded
scenario produces). -/
def hostsOfResult (v : JVal) : List JVal :=
  match v with
  | .jarr xs => xs
  | _ => []

/-- DelugeDaemon.getDaemons: fetch and remember the daemon host list. -/
def getDaemons (srv : Server) (fuel : Nat) (auth : AuthState) (dst : DaemonState) :
    DOut (List JVal) :=
  let r := exec srv fuel (.request "web.get_hosts" [] false 0) auth
  match r.outcome with
  | .payload p =>
    let hosts := hostsOfResult p.result
    ⟨.ok hosts, r.state, { dst with daemonHosts := hosts }, r.posts⟩
  | .thrown e => ⟨.thrown (.daemonErr "Failed to get daemon list" (some e)), r.state, dst, r.posts⟩
  | _ => ⟨.fuelOut, r.state, dst, r.posts⟩

/-- The status record assembled by DelugeDaemon.getHostStatus. -/
structure DaemonStatusInfo where
  status : JVal
  version : JVal
  hostId : JVal
  host : Option JVal
deriving Repr

/-- DelugeDaemon.getHostStatus: one web.get_host_status call; a falsy result
or any thrown error is wrapped in a DaemonError naming the host. -/
def getHostStatus (srv : Server) (fuel : Nat) (auth : AuthState) (dst : DaemonState)
    (hostId : JVal) : DOut DaemonStatusInfo :=
  let r := exec srv fuel (.request "web.get_host_status" [hostId] false 0) auth
  match r.outcome with
  | .payload p =>
    if ! p.result.truthy then
      ⟨.thrown (.daemonErr ("Failed to get status for host " ++ hostId.display)
          (some (.daemonErr "Failed to get host status" none))), r.state, dst, r.posts⟩
    else
      let returnedHostId := p.result.index 0
      let si : DaemonStatusInfo :=
        { status := p.result.index 1
          version := p.result.index 2
          hostId := returnedHostId
          host := dst.daemonHosts.find? fun h => h.index 0 == returnedHostId }
      ⟨.ok si, r.state, dst, r.posts⟩
  | .thrown e =>
    ⟨.thrown (.daemonErr ("Failed to get status for host " ++ hostId.display) (some e)),
      r.state, dst, r.posts⟩
  | _ => ⟨.fuelOut, r.state, dst, r.posts⟩

/-- DelugeDaemon.buildDaemonInfo. -/
def buildDaemonInfo (si : DaemonStatusInfo) : DaemonInfo :=
  { status := si.status
    port := match si.host with | some h => h.index 2 | none => .jnull
    ip := match si.host with | some h => h.index 1 | none => .jnull
    host_id := si.hostId
    version := if si.version.truthy then si.version else .jnull }

/-- DelugeDaemon.startDaemon: web.start_daemon, errors wrapped. -/
def startDaemon (srv : Server) (fuel : Nat) (auth : AuthState) (dst : DaemonState)
    (hostId : JVal) : DOut Unit :=
  let r := exec srv fuel (.request "web.start_daemon" [hostId] false 0) auth
  match r.outcome with
  | .payload _ => ⟨.ok (), r.state, dst, r.posts⟩
  | .thrown e => ⟨.thrown (.daemonErr "Failed to start daemon" (some e)), r.state, dst, r.posts⟩
  | _ => ⟨.fuelOut, r.state, dst, r.posts⟩

/-- DelugeDaemon.connect: web.connect, errors wrapped. -/
def connectRpc (srv : Server) (fuel : Nat) (auth : AuthState) (dst : DaemonState)
    (hostId : JVal) : DOut Unit :=
  let r := exec srv fuel (.request "web.connect" [hostId] false 0) auth
  match r.outcome with
  | .payload _ => ⟨.ok (), r.state, dst, r.posts⟩
  | .thrown e => ⟨.thrown (.daemonErr "Failed to connect to daemon" (some e)), r.state, dst, r.posts⟩
  | _ => ⟨.fuelOut, r.state, dst, r.posts⟩

/-- DelugeDaemon.attemptDaemonConnection: status lookup, then the per-status
switch: Connected resolves with no further call, Online issues web.connect,
Offline issues web.start_daemon then web.connect, anything else throws a
DaemonError naming the unexpected status. -/
def attemptDaemonConnection (srv : Server) (fuel : Nat) (auth : AuthState) (dst : DaemonState)
    (daemonHost : JVal) : DOut DaemonInfo :=
  let hostId := daemonHost.index 0
  let r := getHostStatus srv fuel auth dst hostId
  match r.res with
  | .ok si =>
    if si.status == .jstr "Connected" then
      ⟨.ok (buildDaemonInfo si), r.auth, r.daemon, r.posts⟩
    else if si.status == .jstr "Online" then
      let r2 := connectRpc srv fuel r.auth r.daemon hostId
      match r2.res with
      | .ok _ => ⟨.ok (buildDaemonInfo si), r2.auth, r2.daemon, r.posts ++ r2.posts⟩
      | .thrown e => ⟨.thrown e, r2.auth, r2.daemon, r.posts ++ r2.posts⟩
      | .fuelOut => ⟨.fuelOut, r2.auth, r2.daemon, r.posts ++ r2.posts⟩
    else if si.status == .jstr "Offline" then
      let r2 := startDaemon srv fuel r.auth r.daemon hostId
      match r2.res with
      | .ok _ =>
        let r3 := connectRpc srv fuel r2.auth r2.daemon hostId
        match r3.res with
        | .ok _ => ⟨.ok (buildDaemonInfo si), r3.auth, r3.daemon, r.posts ++ r2.posts ++ r3.posts⟩
        | .thrown e => ⟨.thrown e, r3.auth, r3.daemon, r.posts ++ r2.posts ++ r3.posts⟩
        | .fuelOut => ⟨.fuelOut, r3.auth, r3.daemon, r.posts ++ r2.posts ++ r3.posts⟩
      | .thrown e => ⟨.thrown e, r2.auth, r2.daemon, r.posts ++ r2.posts⟩
      | .fuelOut => ⟨.fuelOut, r2.auth, r2.daemon, r.posts ++ r2.posts⟩
    else
      ⟨.thrown (.daemonErr ("Unknown daemon status: " ++ si.status.display) none),
        r.auth, r.daemon, r.posts⟩
  | .thrown e => ⟨.thrown e, r.auth, r.daemon, r.posts⟩
  | .fuelOut => ⟨.fuelOut, r.auth, r.daemon, r.posts⟩

/-- The sequential per-host loop of DelugeDaemon.connectToDaemon: first
success wins, a thrown attempt is recorded as the last error and the next
host is tried, and exhaustion of the list throws the wrapping DaemonError. -/
def connectLoop (srv : Server) (fuel : Nat) :
    List JVal → Option Err → AuthState → DaemonState → DOut DaemonInfo
  | [], lastError, auth, dst =>
    ⟨.thrown (.daemonErr "Failed to connect to any daemon" lastError), auth, dst, []⟩
  | h :: rest, _lastError, auth, dst =>
    let r := attemptDaemonConnection srv fuel auth dst h
    match r.res with
    | .ok info =>
      ⟨.ok info, r.auth, { r.daemon with daemonInfo := some info, connectAttempts := 1 }, r.posts⟩
    | .thrown e =>
      let r2 := connectLoop srv fuel rest (some e) r.auth r.daemon
      ⟨r2.res, r2.auth, r2.daemon, r.posts ++ r2.posts⟩
    | .fuelOut => ⟨.fuelOut, r.auth, r.daemon, r.posts⟩

/-- The fresh-discovery tail of DelugeDaemon.connectToDaemon: fetch the host
list, fail when it is empty, then run the per-host loop. -/
def connectFresh (srv : Server) (fuel : Nat) (auth : AuthState) (dst : DaemonState) :
    DOut DaemonInfo :=
  let r := getDaemons srv fuel auth dst
  match r.res with
  | .ok hosts =>
    if hosts.isEmpty then
      ⟨.thrown (.daemonErr "No daemons available" none), r.auth, r.daemon, r.posts⟩
    else
      let r2 := connectLoop srv fuel hosts none r.auth r.daemon
      ⟨r2.res, r2.auth, r2.daemon, r.posts ++ r2.posts⟩
  | .thrown e => ⟨.thrown e, r.auth, r.daemon, r.posts⟩
  | .fuelOut => ⟨.fuelOut, r.auth, r.daemon, r.posts⟩

/-- DelugeDaemon.connectToDaemon: return the cached daemonInfo immediately
when its host id is truthy, otherwise run fresh discovery. -/
def connectToDaemon (srv : Server) (fuel : Nat) (auth : AuthState) (dst : DaemonState) :
    DOut DaemonInfo :=
  match dst.daemonInfo with
  | some di =>
    if di.host_id.truthy then ⟨.ok di, auth, dst, []⟩
    else connectFresh srv fuel auth dst
  | none => connectFresh srv fuel auth dst

/-- The field-initializer state of a freshly constructed DelugeDaemon (the
orchestrator constructs a new instance for every connect sequence). -/
def initialDaemonState : DaemonState := {}

/-- JavaScript string concatenation with an optional member (an absent member
concatenates as the text undefined). -/
def jsConcat (s : Option String) : String :=
  s.getD "undefined"

/-- DelugePlugins.tryStandardLabels: label.get_labels, returning an array
result as-is, throwing on a payload error, and returning the empty list
otherwise. -/
def tryStandardLabels (srv : Server) (fuel : Nat) (auth : AuthState) : Run (List JVal) :=
  let r := exec srv fuel (.request "label.get_labels" [] false 0) auth
  match r.outcome with
  | .payload p =>
    match p.result with
    | .jarr xs => ⟨.ok xs, r.state, r.posts⟩
    | _ =>
      match p.error with
      | some e => ⟨.thrown (.generic ("Standard method failed: " ++ jsConcat e.message)),
          r.state, r.posts⟩
      | none => ⟨.ok [], r.state, r.posts⟩
  | .thrown e => ⟨.thrown e, r.state, r.posts⟩
  | _ => ⟨.fuelOut, r.state, r.posts⟩

/-- DelugePlugins.tryLegacyLabels: label.get_config, returning the labels
member when it is an array and throwing otherwise. -/
def tryLegacyLabels (srv : Server) (fuel : Nat) (auth : AuthState) : Run (List JVal) :=
  let r := exec srv fuel (.request "label.get_config" [] false 0) auth
  match r.outcome with
  | .payload p =>
    if p.result.truthy then
      match p.result.getField "labels" with
      | .jarr xs => ⟨.ok xs, r.state, r.posts⟩
      | _ => ⟨.thrown (.generic "Legacy method returned no labels"), r.state, r.posts⟩
    else ⟨.thrown (.generic "Legacy method returned no labels"), r.state, r.posts⟩
  | .thrown e => ⟨.thrown e, r.state, r.posts⟩
  | _ => ⟨.fuelOut, r.state, r.posts⟩

/-- Object.values, which for an array yields its elements. -/
def jsObjectValues : JVal → List JVal
  | .jobj fs => fs.map Prod.snd
  | .jarr xs => xs
  | _ => []

/-- The typeof-object-and-not-null test. -/
def typeofObjectNonNull : JVal → Bool
  | .jobj _ => true
  | .jarr _ => true
  | _ => false

/-- The per-entry filter of tryLabelPlusLabels: an object with a string
name member contributes that name. -/
def labelPlusName : JVal → Option String
  | .jobj fs =>
    match fs.find? fun f => f.1 == "name" with
    | some f => match f.2 with | .jstr s => some s | _ => none
    | none => none
  | _ => none

/-- DelugePlugins.tryLabelPlusLabels: labelplus.get_labels, extracting the
name members of the object values of the result and throwing when the result
is not an object. -/
def tryLabelPlusLabels (srv : Server) (fuel : Nat) (auth : AuthState) : Run (List JVal) :=
  let r := exec srv fuel (.request "labelplus.get_labels" [] false 0) auth
  match r.outcome with
  | .payload p =>
    if p.result.truthy && typeofObjectNonNull p.result then
      let labels := (jsObjectValues p.result).filterMap labelPlusName
      ⟨.ok (labels.map JVal.jstr), r.state, r.posts⟩
    else ⟨.thrown (.generic "LabelPlus method returned no labels"), r.state, r.posts⟩
  | .thrown e => ⟨.thrown e, r.state, r.posts⟩
  | _ => ⟨.fuelOut, r.state, r.posts⟩

/-- Third phase of DelugePlugins.getLabels: the LabelPlus strategy, with the
final fall-back to the empty list. -/
def getLabelsPhase3 (srv : Server) (fuel : Nat) (auth : AuthState)
    (acc : List (String × List JVal)) : Run (List JVal) :=
  let r := tryLabelPlusLabels srv fuel auth
  match r.res with
  | .ok ls =>
    if 0 < ls.length then ⟨.ok ls, r.auth, acc ++ r.posts⟩
    else ⟨.ok [], r.auth, acc ++ r.posts⟩
  | .thrown _ => ⟨.ok [], r.auth, acc ++ r.posts⟩
  | .fuelOut => ⟨.fuelOut, r.auth, acc ++ r.posts⟩

/-- Second phase of DelugePlugins.getLabels: the legacy strategy, falling
through to the LabelPlus phase on a throw or an empty result. -/
def getLabelsPhase2 (srv : Server) (fuel : Nat) (auth : AuthState)
    (acc : List (String × List JVal)) : Run (List JVal) :=
  let r := tryLegacyLabels srv fuel auth
  match r.res with
  | .ok ls =>
    if 0 < ls.length then ⟨.ok ls, r.auth, acc ++ r.posts⟩
    else getLabelsPhase3 srv fuel r.auth (acc ++ r.posts)
  | .thrown _ => getLabelsPhase3 srv fuel r.auth (acc ++ r.posts)
  | .fuelOut => ⟨.fuelOut, r.auth, acc ++ r.posts⟩

/-- DelugePlugins.getLabels: the three strategies in strict order, each throw
or empty result falling through to the next, with the final empty default. -/
def getLabels (srv : Server) (fuel : Nat) (auth : AuthState) : Run (List JVal) :=
  let r := tryStandardLabels srv fuel auth
  match r.res with
  | .ok ls =>
    if 0 < ls.length then ⟨.ok ls, r.auth, r.posts⟩
    else getLabelsPhase2 srv fuel r.auth r.posts
  | .thrown _ => getLabelsPhase2 srv fuel r.auth r.posts
  | .fuelOut => ⟨.fuelOut, r.auth, r.posts⟩

/-- The caller-supplied add-time options of DelugeTorrent.buildTorrentOptions;
an absent member is undefined. -/
structure TorrentOptions where
  add_paused : Option JVal := none
  download_location : Option JVal := none
  move_completed : Option JVal := none
  move_completed_path : Option JVal := none
  max_download_speed : Option JVal := none
  max_upload_speed : Option JVal := none
  max_connections : Option JVal := none
  max_upload_slots : Option JVal := none
  prioritize_first_last_pieces : Option JVal := none
deriving Repr

/-- The plugin options of DelugePlugins.processPluginOptions. -/
structure PluginOptions where
  label : Option JVal := none
deriving Repr

/-- DelugeTorrent.buildTorrentOptions: recognized keys only, explicit boolean
coercions, truthiness checks for the two path options, and omission of every
unset key. -/
def buildTorrentOptions : Option TorrentOptions → JVal
  | none => .jobj []
  | some o =>
    let f1 := match o.add_paused with
      | some v => [("add_paused", JVal.jbool v.truthy)]
      | none => []
    let f2 := match o.download_location with
      | some v => if v.truthy then [("download_location", v)] else []
      | none => []
    let f3 := match o.move_completed with
      | some v => [("move_completed", JVal.jbool v.truthy)]
      | none => []
    let f4 := match o.move_completed_path with
      | some v => if v.truthy then [("move_completed_path", v)] else []
      | none => []
    let f5 := match o.max_download_speed with
      | some v => [("max_download_speed", v)]
      | none => []
    let f6 := match o.max_upload_speed with
      | some v => [("max_upload_speed", v)]
      | none => []
    let f7 := match o.max_connections with
      | some v => [("max_connections", v)]
      | none => []
    let f8 := match o.max_upload_slots with
      | some v => [("max_upload_slots", v)]
      | none => []
    let f9 := match o.prioritize_first_last_pieces with
      | some v => [("prioritize_first_last_pieces", JVal.jbool v.truthy)]
      | none => []
    .jobj (f1 ++ f2 ++ f3 ++ f4 ++ f5 ++ f6 ++ f7 ++ f8 ++ f9)

/-- DelugePlugins.processPluginOptions: apply a string label via
label.set_torrent, swallowing any failure. -/
def processPluginOptions (srv : Server) (fuel : Nat) (auth : AuthState)
    (torrentHash : JVal) (plugins : Option PluginOptions) : Run Unit :=
  match plugins with
  | none => ⟨.ok (), auth, []⟩
  | some pl =>
    if ! torrentHash.truthy then ⟨.ok (), auth, []⟩
    else
      match pl.label with
      | some (.jstr s) =>
        if s != "" then
          let r := exec srv fuel (.request "label.set_torrent" [torrentHash, .jstr s] false 0) auth
          match r.outcome with
          | .fuelOut => ⟨.fuelOut, r.state, r.posts⟩
          | _ => ⟨.ok (), r.state, r.posts⟩
        else ⟨.ok (), auth, []⟩
      | _ => ⟨.ok (), auth, []⟩

/-- Cookie string assembly of DelugeTorrent.addUrl: name equals value pairs
joined with semicolon-space. -/
def cookieHeaderString (cookies : List (String × String)) : String :=
  String.intercalate "; " (cookies.map fun c => c.1 ++ "=" ++ c.2)

/-- DelugeTorrent.addUrl: core.add_torrent_url with url, options and a
headers object; the arity-mismatch error of older servers triggers one retry
with an empty headers object; a 403 Forbidden server message maps to the
torrent-specific blocked error; any other payload error throws a TorrentError
carrying the server message. -/
def addUrl (srv : Server) (fuel : Nat) (auth : AuthState) (url : String)
    (cookies : Option (List (String × String))) (plugins : Option PluginOptions)
    (options : Option TorrentOptions) : Run JVal :=
  let params := buildTorrentOptions options
  let headers : JVal := match cookies with
    | some cs => .jobj [("Cookie", .jstr (cookieHeaderString cs))]
    | none => .jobj []
  let r := exec srv fuel (.request "core.add_torrent_url" [.jstr url, params, headers] false 0) auth
  match r.outcome with
  | .payload p =>
    match p.error with
    | some e =>
      if msgTruthy e.message &&
          (strContains (e.message.getD "") "takes exactly 3 arguments" ||
           strContains (e.message.getD "") "takes exactly three arguments") then
        let r2 := exec srv fuel
          (.request "core.add_torrent_url" [.jstr url, params, .jobj []] false 0) r.state
        match r2.outcome with
        | .payload p2 =>
          if ! p2.result.truthy then
            ⟨.thrown (.torrent "Server refused torrent" (.jstr "TORRENT_ERROR")), r2.state,
              r.posts ++ r2.posts⟩
          else
            let r3 := processPluginOptions srv fuel r2.state p2.result plugins
            match r3.res with
            | .fuelOut => ⟨.fuelOut, r3.auth, r.posts ++ r2.posts ++ r3.posts⟩
            | _ => ⟨.ok p2.result, r3.auth, r.posts ++ r2.posts ++ r3.posts⟩
        | .thrown e2 => ⟨.thrown e2, r2.state, r.posts ++ r2.posts⟩
        | _ => ⟨.fuelOut, r2.state, r.posts ++ r2.posts⟩
      else if msgTruthy e.message && strContains (e.message.getD "") "403 Forbidden" then
        ⟨.thrown (.torrent "Unable to access torrent - the site may require authentication or cookies"
            (.jnum 403)), r.state, r.posts⟩
      else
        ⟨.thrown (.torrent (jsOrElse e.message "Failed to add torrent") (.jstr "TORRENT_ERROR")),
          r.state, r.posts⟩
    | none =>
      if ! p.result.truthy then
        ⟨.thrown (.torrent "Server refused torrent" (.jstr "TORRENT_ERROR")), r.state, r.posts⟩
      else
        let r3 := processPluginOptions srv fuel r.state p.result plugins
        match r3.res with
        | .fuelOut => ⟨.fuelOut, r3.auth, r.posts ++ r3.posts⟩
        | _ => ⟨.ok p.result, r3.auth, r.posts ++ r3.posts⟩
  | .thrown e => ⟨.thrown e, r.state, r.posts⟩
  | _ => ⟨.fuelOut, r.state, r.posts⟩

/-- DelugeTorrent.addFile: core.add_torrent_file with filename, base64 data
and options; an already-in-session error throws the fixed
already-added TorrentError with the ALREADY_EXISTS code; any other payload
error throws a TorrentError carrying the server message. -/
def addFile (srv : Server) (fuel : Nat) (auth : AuthState) (fileData filename : String)
    (plugins : Option PluginOptions) (options : Option TorrentOptions) : Run JVal :=
  let params := buildTorrentOptions options
  let r := exec srv fuel
    (.request "core.add_torrent_file" [.jstr filename, .jstr fileData, params] false 0) auth
  match r.outcome with
  | .payload p =>
    match p.error with
    | some e =>
      if msgTruthy e.message && strContains (e.message.getD "") "already in session" then
        ⟨.thrown (.torrent "Torrent already added to Deluge" (.jstr "ALREADY_EXISTS")),
          r.state, r.posts⟩
      else
        ⟨.thrown (.torrent (jsOrElse e.message "Failed to add torrent file") (.jstr "TORRENT_ERROR")),
          r.state, r.posts⟩
    | none =>
      if ! p.result.truthy then
        ⟨.thrown (.torrent "Server refused torrent file" (.jstr "TORRENT_ERROR")), r.state, r.posts⟩
      else
        let r3 := processPluginOptions srv fuel r.state p.result plugins
        match r3.res with
        | .fuelOut => ⟨.fuelOut, r3.auth, r.posts ++ r3.posts⟩
        | _ => ⟨.ok p.result, r3.auth, r.posts ++ r3.posts⟩
  | .thrown e => ⟨.thrown e, r.state, r.posts⟩
  | _ => ⟨.fuelOut, r.state, r.posts⟩

/-
  Unfolding lemmas for the interpreter. The fuel argument of inner calls is
  kept opaque and inner results are supplied as hypotheses, so each lemma
  unfolds exactly one layer.
-/

theorem extractSessionData_none (st : AuthState) (resp : HttpResponse)
    (h1 : resp.setCookie = none) (h2 : resp.csrfHeader = none) :
    extractSessionData st resp = st := by
  simp [extractSessionData, h1, h2]

theorem clearSession_serverPass (st : AuthState) :
    (clearSession st).serverPass = st.serverPass := rfl

theorem clearSession_isValidating (st : AuthState) :
    (clearSession st).isValidating = st.isValidating := rfl

theorem exec_request_success (srv : Server) (fuel : Nat) (m : String) (p : List JVal)
    (s : Bool) (r : Nat) (st : AuthState) (resp : HttpResponse)
    (h1 : srv m p = resp) (h2 : resp.okStatus = true)
    (h3 : resp.body.error = none) (h4 : (resp.body.status == some 403) = false) :
    exec srv (fuel + 1) (.request m p s r) st =
      ⟨.payload resp.body, extractSessionData st resp, [(m, p)]⟩ := by
  simp [exec, h1, h2, h3, h4]

theorem exec_request_http403_ck (srv : Server) (fuel : Nat) (m : String) (p : List JVal)
    (s : Bool) (r : Nat) (st : AuthState) (resp : HttpResponse) (b : Bool)
    (st2 : AuthState) (ps : List (String × List JVal))
    (h1 : srv m p = resp) (h2 : resp.okStatus = false) (h3 : resp.status = 403)
    (h4 : strContains m "torrent" = false)
    (hk : exec srv fuel .checkSession (extractSessionData st resp) = ⟨.boolRes b, st2, ps⟩) :
    exec srv (fuel + 1) (.request m p s r) st =
      ⟨(exec srv fuel (.request m p s 0) st2).outcome,
       (exec srv fuel (.request m p s 0) st2).state,
       (m, p) :: (ps ++ (exec srv fuel (.request m p s 0) st2).posts)⟩ := by
  simp [exec, h1, h2, h3, h4, hk]

theorem exec_request_http403_ckFuelOut (srv : Server) (fuel : Nat) (m : String) (p : List JVal)
    (s : Bool) (r : Nat) (st : AuthState) (resp : HttpResponse)
    (st2 : AuthState) (ps : List (String × List JVal))
    (h1 : srv m p = resp) (h2 : resp.okStatus = false) (h3 : resp.status = 403)
    (h4 : strContains m "torrent" = false)
    (hk : exec srv fuel .checkSession (extractSessionData st resp) = ⟨.fuelOut, st2, ps⟩) :
    exec srv (fuel + 1) (.request m p s r) st = ⟨.fuelOut, st2, (m, p) :: ps⟩ := by
  simp [exec, h1, h2, h3, h4, hk]

theorem exec_request_httpError (srv : Server) (fuel : Nat) (m : String) (p : List JVal)
    (s : Bool) (r : Nat) (st : AuthState) (resp : HttpResponse)
    (h1 : srv m p = resp) (h2 : resp.okStatus = false)
    (h3 : (resp.status == 403 && ! strContains m "torrent") = false) :
    exec srv (fuel + 1) (.request m p s r) st =
      ⟨.thrown (.network ("HTTP error! status: " ++ toString resp.status) (some resp.status)),
        extractSessionData st resp, [(m, p)]⟩ := by
  simp [exec, h1, h2, h3]

theorem exec_request_already (srv : Server) (fuel : Nat) (m : String) (p : List JVal)
    (s : Bool) (r : Nat) (st : AuthState) (resp : HttpResponse) (e : RpcError)
    (h1 : srv m p = resp) (h2 : resp.okStatus = true)
    (h3 : resp.body.error = some e)
    (h4 : strContains (e.message.getD "") "already in session" = true) :
    exec srv (fuel + 1) (.request m p s r) st =
      ⟨.payload resp.body, extractSessionData st resp, [(m, p)]⟩ := by
  simp [exec, h1, h2, h3, h4]

theorem exec_request_genericError (srv : Server) (fuel : Nat) (m : String) (p : List JVal)
    (s : Bool) (r : Nat) (st : AuthState) (resp : HttpResponse) (e : RpcError)
    (h1 : srv m p = resp) (h2 : resp.okStatus = true)
    (h3 : resp.body.error = some e)
    (h4 : strContains (e.message.getD "") "already in session" = false)
    (h5 : isAuthErrorMessage (e.message.getD "") = false) :
    exec srv (fuel + 1) (.request m p s r) st =
      ⟨.thrown (.generic (jsOrElse e.message "Unknown server error")),
        extractSessionData st resp, [(m, p)]⟩ := by
  simp [exec, h1, h2, h3, h4, h5]

theorem exec_request_authCap (srv : Server) (fuel : Nat) (m : String) (p : List JVal)
    (s : Bool) (r : Nat) (st : AuthState) (resp : HttpResponse) (e : RpcError)
    (h1 : srv m p = resp) (h2 : resp.okStatus = true)
    (h3 : resp.body.error = some e)
    (h4 : strContains (e.message.getD "") "already in session" = false)
    (h5 : isAuthErrorMessage (e.message.getD "") = true)
    (h6 : maxRetries ≤ r) :
    exec srv (fuel + 1) (.request m p s r) st =
      ⟨.thrown (.auth "Authentication failed after multiple retries"),
        extractSessionData st resp, [(m, p)]⟩ := by
  simp [exec, h1, h2, h3, h4, h5, h6]

theorem exec_request_authRetry (srv : Server) (fuel : Nat) (m : String) (p : List JVal)
    (s : Bool) (r : Nat) (st : AuthState) (resp : HttpResponse) (e : RpcError) (b : Bool)
    (st2 : AuthState) (ps : List (String × List JVal))
    (h1 : srv m p = resp) (h2 : resp.okStatus = true)
    (h3 : resp.body.error = some e)
    (h4 : strContains (e.message.getD "") "already in session" = false)
    (h5 : isAuthErrorMessage (e.message.getD "") = true)
    (h6 : ¬ maxRetries ≤ r)
    (hl : exec srv fuel (.login s) (clearSession (extractSessionData st resp)) =
      ⟨.boolRes b, st2, ps⟩) :
    exec srv (fuel + 1) (.request m p s r) st =
      ⟨(exec srv fuel (.request m p s (r + 1)) st2).outcome,
       (exec srv fuel (.request m p s (r + 1)) st2).state,
       (m, p) :: (ps ++ (exec srv fuel (.request m p s (r + 1)) st2).posts)⟩ := by
  simp [exec, h1, h2, h3, h4, h5, h6, hl]

theorem exec_request_authRetry_thrown (srv : Server) (fuel : Nat) (m : String) (p : List JVal)
    (s : Bool) (r : Nat) (st : AuthState) (resp : HttpResponse) (e : RpcError) (err : Err)
    (st2 : AuthState) (ps : List (String × List JVal))
    (h1 : srv m p = resp) (h2 : resp.okStatus = true)
    (h3 : resp.body.error = some e)
    (h4 : strContains (e.message.getD "") "already in session" = false)
    (h5 : isAuthErrorMessage (e.message.getD "") = true)
    (h6 : ¬ maxRetries ≤ r)
    (hl : exec srv fuel (.login s) (clearSession (extractSessionData st resp)) =
      ⟨.thrown err, st2, ps⟩) :
    exec srv (fuel + 1) (.request m p s r) st = ⟨.thrown err, st2, (m, p) :: ps⟩ := by
  simp [exec, h1, h2, h3, h4, h5, h6, hl]

theorem exec_request_authRetry_fuelOut (srv : Server) (fuel : Nat) (m : String) (p : List JVal)
    (s : Bool) (r : Nat) (st : AuthState) (resp : HttpResponse) (e : RpcError)
    (st2 : AuthState) (ps : List (String × List JVal))
    (h1 : srv m p = resp) (h2 : resp.okStatus = true)
    (h3 : resp.body.error = some e)
    (h4 : strContains (e.message.getD "") "already in session" = false)
    (h5 : isAuthErrorMessage (e.message.getD "") = true)
    (h6 : ¬ maxRetries ≤ r)
    (hl : exec srv fuel (.login s) (clearSession (extractSessionData st resp)) =
      ⟨.fuelOut, st2, ps⟩) :
    exec srv (fuel + 1) (.request m p s r) st = ⟨.fuelOut, st2, (m, p) :: ps⟩ := by
  simp [exec, h1, h2, h3, h4, h5, h6, hl]

theorem exec_checkSession_zero (srv : Server) (st : AuthState) :
    exec srv 0 .checkSession st = ⟨.fuelOut, st, []⟩ := rfl

theorem exec_checkSession_payload (srv : Server) (fuel : Nat) (st : AuthState)
    (p : DelugeResponse) (st2 : AuthState) (ps : List (String × List JVal))
    (h : exec srv fuel (.request "auth.check_session" [] true 0) st = ⟨.payload p, st2, ps⟩) :
    exec srv (fuel + 1) .checkSession st =
      ⟨.boolRes (p.result == .jbool true), st2, ps⟩ := by
  simp [exec, h]

theorem exec_checkSession_thrown (srv : Server) (fuel : Nat) (st : AuthState)
    (e : Err) (st2 : AuthState) (ps : List (String × List JVal))
    (h : exec srv fuel (.request "auth.check_session" [] true 0) st = ⟨.thrown e, st2, ps⟩) :
    exec srv (fuel + 1) .checkSession st = ⟨.boolRes false, st2, ps⟩ := by
  simp [exec, h]

theorem exec_checkSession_fuelOut (srv : Server) (fuel : Nat) (st : AuthState)
    (st2 : AuthState) (ps : List (String × List JVal))
    (h : exec srv fuel (.request "auth.check_session" [] true 0) st = ⟨.fuelOut, st2, ps⟩) :
    exec srv (fuel + 1) .checkSession st = ⟨.fuelOut, st2, ps⟩ := by
  simp [exec, h]

theorem exec_login_zero (srv : Server) (s : Bool) (st : AuthState) :
    exec srv 0 (.login s) st = ⟨.fuelOut, st, []⟩ := rfl

theorem exec_login_emptyPass (srv : Server) (fuel : Nat) (s : Bool) (st : AuthState)
    (h : st.serverPass = "") :
    exec srv (fuel + 1) (.login s) st = ⟨.thrown (.auth "No password available"), st, []⟩ := by
  simp [exec, h]

theorem exec_login_validating (srv : Server) (fuel : Nat) (s : Bool) (st : AuthState)
    (h1 : ¬ st.serverPass = "") (h2 : st.isValidating = true) :
    exec srv (fuel + 1) (.login s) st = exec srv fuel (.loginFresh s) (clearSession st) := by
  simp [exec, h1, h2]

theorem exec_login_checkTrue (srv : Server) (fuel : Nat) (s : Bool) (st : AuthState)
    (st2 : AuthState) (ps : List (String × List JVal))
    (h1 : ¬ st.serverPass = "") (h2 : st.isValidating = false)
    (hc : exec srv fuel .checkSession st = ⟨.boolRes true, st2, ps⟩) :
    exec srv (fuel + 1) (.login s) st = ⟨.boolRes true, st2, ps⟩ := by
  simp [exec, h1, h2, hc]

theorem exec_login_checkFalse (srv : Server) (fuel : Nat) (s : Bool) (st : AuthState)
    (st2 : AuthState) (ps : List (String × List JVal)) (rf : RunResult)
    (h1 : ¬ st.serverPass = "") (h2 : st.isValidating = false)
    (hc : exec srv fuel .checkSession st = ⟨.boolRes false, st2, ps⟩)
    (hf : exec srv fuel (.loginFresh s) st2 = rf) :
    exec srv (fuel + 1) (.login s) st = ⟨rf.outcome, rf.state, ps ++ rf.posts⟩ := by
  simp [exec, h1, h2, hc, hf]

theorem exec_login_checkFuelOut (srv : Server) (fuel : Nat) (s : Bool) (st : AuthState)
    (st2 : AuthState) (ps : List (String × List JVal))
    (h1 : ¬ st.serverPass = "") (h2 : st.isValidating = false)
    (hc : exec srv fuel .checkSession st = ⟨.fuelOut, st2, ps⟩) :
    exec srv (fuel + 1) (.login s) st = ⟨.fuelOut, st2, ps⟩ := by
  simp [exec, h1, h2, hc]

theorem exec_loginFresh_zero (srv : Server) (s : Bool) (st : AuthState) :
    exec srv 0 (.loginFresh s) st = ⟨.fuelOut, st, []⟩ := rfl

theorem exec_loginFresh_payload (srv : Server) (fuel : Nat) (s : Bool) (st : AuthState)
    (p : DelugeResponse) (st2 : AuthState) (ps : List (String × List JVal))
    (h : exec srv fuel (.request "auth.login" [.jstr (clearSession st).serverPass] s 0)
        (clearSession st) = ⟨.payload p, st2, ps⟩) :
    exec srv (fuel + 1) (.loginFresh s) st =
      (if p.result == .jbool true then ⟨.boolRes true, st2, ps⟩
       else ⟨.thrown (.auth "Login failed - check your Deluge password"), st2, ps⟩) := by
  by_cases hb : (p.result == .jbool true) = true
  · simp [exec, h, hb]
  · simp [exec, h, hb]

theorem exec_loginFresh_thrown (srv : Server) (fuel : Nat) (s : Bool) (st : AuthState)
    (e : Err) (st2 : AuthState) (ps : List (String × List JVal))
    (h : exec srv fuel (.request "auth.login" [.jstr (clearSession st).serverPass] s 0)
        (clearSession st) = ⟨.thrown e, st2, ps⟩) :
    exec srv (fuel + 1) (.loginFresh s) st = ⟨.thrown e, st2, ps⟩ := by
  simp [exec, h]

theorem exec_loginFresh_fuelOut (srv : Server) (fuel : Nat) (s : Bool) (st : AuthState)
    (st2 : AuthState) (ps : List (String × List JVal))
    (h : exec srv fuel (.request "auth.login" [.jstr (clearSession st).serverPass] s 0)
        (clearSession st) = ⟨.fuelOut, st2, ps⟩) :
    exec srv (fuel + 1) (.loginFresh s) st = ⟨.fuelOut, st2, ps⟩ := by
  simp [exec, h]

theorem countPosts_append (m : String) (a b : List (String × List JVal)) :
    countPosts m (a ++ b) = countPosts m a + countPosts m b := by
  simp [countPosts, List.filter_append]

/-
  Scenario for claim C1: a server that answers every core.get_config call
  with HTTP 403 and every other method with a successful result true body.
-/

/-- Scenario server: perpetual HTTP 403 on core.get_config only. -/
def srv403 : Server := fun method _ =>
  if method = "core.get_config" then { status := 403 }
  else { status := 200, body := { result := .jbool true } }

theorem chk403_zero (st : AuthState) : exec srv403 0 .checkSession st = ⟨.fuelOut, st, []⟩ := rfl

theorem chk403_one (st : AuthState) : exec srv403 1 .checkSession st = ⟨.fuelOut, st, []⟩ :=
  exec_checkSession_fuelOut srv403 0 st st [] rfl

theorem chk403_succ2 (g : Nat) (st : AuthState) :
    exec srv403 (g + 2) .checkSession st =
      ⟨.boolRes true, st, [("auth.check_session", [])]⟩ := by
  have hreq := exec_request_success srv403 g "auth.check_session" [] true 0 st
    { status := 200, body := { result := .jbool true } } rfl rfl rfl rfl
  rw [extractSessionData_none st _ rfl rfl] at hreq
  have h := exec_checkSession_payload srv403 (g + 1) st _ _ _ hreq
  simpa using h

/-- C1: against a server that perpetually answers HTTP 403 on the non-torrent
method core.get_config, DelugeRequest.request never completes under any fuel
bound, and the number of core.get_config posts grows beyond every bound (at
least fuel - 1 posts at fuel). The 403 branch does call auth.checkSession
before each retry, but the recursive call passes no retry counter, so the
claimed cap of at most one 403-triggered retry per logical call does not hold
and the recursion is unbounded. -/
theorem C1_http403_retry_unbounded : ∀ (fuel : Nat) (st : AuthState),
    (exec srv403 fuel (.request "core.get_config" [] false 0) st).outcome = .fuelOut ∧
    fuel ≤ countPosts "core.get_config"
      (exec srv403 fuel (.request "core.get_config" [] false 0) st).posts + 1 := by
  intro fuel
  induction fuel with
  | zero => intro st; exact ⟨rfl, by simp⟩
  | succ n ih =>
    intro st
    match n, ih with
    | 0, _ =>
      have h := exec_request_http403_ckFuelOut srv403 0 "core.get_config" [] false 0 st
        { status := 403 } st [] rfl rfl rfl (by decide)
        (by rw [extractSessionData_none st _ rfl rfl]; exact chk403_zero st)
      rw [h]
      exact ⟨rfl, by simp [countPosts]⟩
    | 1, _ =>
      have h := exec_request_http403_ckFuelOut srv403 1 "core.get_config" [] false 0 st
        { status := 403 } st [] rfl rfl rfl (by decide)
        (by rw [extractSessionData_none st _ rfl rfl]; exact chk403_one st)
      rw [h]
      exact ⟨rfl, by simp [countPosts]⟩
    | (g + 2), ih =>
      have h := exec_request_http403_ck srv403 (g + 2) "core.get_config" [] false 0 st
        { status := 403 } true st [("auth.check_session", [])] rfl rfl rfl (by decide)
        (by rw [extractSessionData_none st _ rfl rfl]; exact chk403_succ2 g st)
      rw [h]
      obtain ⟨ho, hc⟩ := ih st
      refine ⟨ho, ?_⟩
      simp only [countPosts_append]
      simp [countPosts] at hc ⊢
      omega

/-
  Scenario for claim C2: core.get_config always answers with an
  auth-error-classified payload message, while the auth endpoints behave
  normally (check_session reports the session invalid, login succeeds).
-/

/-- Scenario server: perpetual auth-error payload on core.get_config, working
auth endpoints. -/
def srvAuthErr : Server := fun method _ =>
  if method = "core.get_config" then
    { status := 200, body := { error := some { message := some "Not authenticated" } } }
  else if method = "auth.check_session" then
    { status := 200, body := { result := .jbool false } }
  else
    { status := 200, body := { result := .jbool true } }

theorem chkA_zero (st : AuthState) : exec srvAuthErr 0 .checkSession st = ⟨.fuelOut, st, []⟩ := rfl

theorem chkA_one (st : AuthState) : exec srvAuthErr 1 .checkSession st = ⟨.fuelOut, st, []⟩ :=
  exec_checkSession_fuelOut srvAuthErr 0 st st [] rfl

theorem chkA_succ2 (g : Nat) (st : AuthState) :
    exec srvAuthErr (g + 2) .checkSession st =
      ⟨.boolRes false, st, [("auth.check_session", [])]⟩ := by
  have hreq := exec_request_success srvAuthErr g "auth.check_session" [] true 0 st
    { status := 200, body := { result := .jbool false } } rfl rfl rfl rfl
  rw [extractSessionData_none st _ rfl rfl] at hreq
  have h := exec_checkSession_payload srvAuthErr (g + 1) st _ _ _ hreq
  simpa using h

theorem freshA_zero (s : Bool) (st : AuthState) :
    exec srvAuthErr 0 (.loginFresh s) st = ⟨.fuelOut, st, []⟩ := rfl

theorem freshA_one (s : Bool) (st : AuthState) :
    exec srvAuthErr 1 (.loginFresh s) st = ⟨.fuelOut, clearSession st, []⟩ :=
  exec_loginFresh_fuelOut srvAuthErr 0 s st (clearSession st) [] rfl

theorem freshA_succ2 (g : Nat) (s : Bool) (st : AuthState) :
    exec srvAuthErr (g + 2) (.loginFresh s) st =
      ⟨.boolRes true, clearSession st, [("auth.login", [.jstr st.serverPass])]⟩ := by
  have hreq := exec_request_success srvAuthErr g "auth.login"
    [.jstr (clearSession st).serverPass] s 0 (clearSession st)
    { status := 200, body := { result := .jbool true } } rfl rfl rfl rfl
  rw [extractSessionData_none _ _ rfl rfl] at hreq
  have h := exec_loginFresh_payload srvAuthErr (g + 1) s st _ _ _ hreq
  simpa [clearSession_serverPass] using h

/-- On the C2 scenario server, one login call posts auth.login at most once
and can only run out of fuel, succeed, or throw the missing-password
authentication error. -/
theorem loginA (fuel : Nat) (s : Bool) (st : AuthState) :
    countPosts "auth.login" (exec srvAuthErr fuel (.login s) st).posts ≤ 1 ∧
    ((exec srvAuthErr fuel (.login s) st).outcome = .fuelOut ∨
     (exec srvAuthErr fuel (.login s) st).outcome = .boolRes true ∨
     (exec srvAuthErr fuel (.login s) st).outcome = .thrown (.auth "No password available")) := by
  match fuel with
  | 0 => exact ⟨by simp [exec_login_zero, countPosts], Or.inl rfl⟩
  | (f + 1) =>
    by_cases hp : st.serverPass = ""
    · rw [exec_login_emptyPass srvAuthErr f s st hp]
      exact ⟨by simp [countPosts], Or.inr (Or.inr rfl)⟩
    · by_cases hv : st.isValidating = true
      · rw [exec_login_validating srvAuthErr f s st hp hv]
        match f with
        | 0 => exact ⟨by simp [freshA_zero, countPosts], Or.inl (by simp [freshA_zero])⟩
        | 1 => exact ⟨by simp [freshA_one, countPosts], Or.inl (by simp [freshA_one])⟩
        | (g + 2) =>
          rw [freshA_succ2 g s (clearSession st)]
          exact ⟨by simp [countPosts], Or.inr (Or.inl rfl)⟩
      · have hv2 : st.isValidating = false := by
          cases h : st.isValidating
          · rfl
          · exact absurd h hv
        match f with
        | 0 =>
          rw [exec_login_checkFuelOut srvAuthErr 0 s st st [] hp hv2 (chkA_zero st)]
          exact ⟨by simp [countPosts], Or.inl rfl⟩
        | 1 =>
          rw [exec_login_checkFuelOut srvAuthErr 1 s st st [] hp hv2 (chkA_one st)]
          exact ⟨by simp [countPosts], Or.inl rfl⟩
        | (g + 2) =>
          rw [exec_login_checkFalse srvAuthErr (g + 2) s st st
            [("auth.check_session", [])] _ hp hv2 (chkA_succ2 g st) rfl]
          rw [freshA_succ2 g s st]
          exact ⟨by simp [countPosts], Or.inr (Or.inl rfl)⟩

/-- On the C2 scenario server, a request for core.get_config with retry
counter r posts auth.login at most 2 - r more times and can only run out of
fuel or reject with an AuthenticationError. -/
theorem reqA : ∀ (fuel : Nat) (r : Nat) (st : AuthState),
    countPosts "auth.login"
      (exec srvAuthErr fuel (.request "core.get_config" [] false r) st).posts + min r 2 ≤ 2 ∧
    ((exec srvAuthErr fuel (.request "core.get_config" [] false r) st).outcome = .fuelOut ∨
     ∃ msg, (exec srvAuthErr fuel (.request "core.get_config" [] false r) st).outcome =
       .thrown (.auth msg)) := by
  intro fuel
  induction fuel with
  | zero =>
    intro r st
    exact ⟨by simp [exec, countPosts, Nat.min_le_right], Or.inl rfl⟩
  | succ n ih =>
    intro r st
    by_cases hr : maxRetries ≤ r
    · rw [exec_request_authCap srvAuthErr n "core.get_config" [] false r st _
        { message := some "Not authenticated" } rfl rfl rfl (by decide) (by decide) hr]
      refine ⟨by simp [countPosts, Nat.min_le_right], Or.inr ⟨_, rfl⟩⟩
    · have hr2 : r < 2 := by simp [maxRetries] at hr; omega
      have hst : extractSessionData st (srvAuthErr "core.get_config" []) = st :=
        extractSessionData_none st _ rfl rfl
      obtain ⟨hlc, hlo⟩ := loginA n false (clearSession st)
      rcases hlo with hlo | hlo | hlo
      · have hl : exec srvAuthErr n (.login false) (clearSession st) =
          ⟨.fuelOut, (exec srvAuthErr n (.login false) (clearSession st)).state,
            (exec srvAuthErr n (.login false) (clearSession st)).posts⟩ := by
          rw [← hlo]
        have h := exec_request_authRetry_fuelOut srvAuthErr n "core.get_config" [] false r st _
          { message := some "Not authenticated" } _ _ rfl rfl rfl (by decide) (by decide) hr
          (by rw [hst]; exact hl)
        rw [h]
        refine ⟨?_, Or.inl rfl⟩
        simp [countPosts] at hlc ⊢
        omega
      · have hl : exec srvAuthErr n (.login false) (clearSession st) =
          ⟨.boolRes true, (exec srvAuthErr n (.login false) (clearSession st)).state,
            (exec srvAuthErr n (.login false) (clearSession st)).posts⟩ := by
          rw [← hlo]
        have h := exec_request_authRetry srvAuthErr n "core.get_config" [] false r st _
          { message := some "Not authenticated" } true _ _ rfl rfl rfl (by decide) (by decide) hr
          (by rw [hst]; exact hl)
        rw [h]
        obtain ⟨hrc, hro⟩ := ih (r + 1) ((exec srvAuthErr n (.login false) (clearSession st)).state)
        constructor
        · simp [countPosts, List.filter_append] at hlc hrc ⊢
          omega
        · exact hro
      · have hl : exec srvAuthErr n (.login false) (clearSession st) =
          ⟨.thrown (.auth "No password available"),
            (exec srvAuthErr n (.login false) (clearSession st)).state,
            (exec srvAuthErr n (.login false) (clearSession st)).posts⟩ := by
          rw [← hlo]
        have h := exec_request_authRetry_thrown srvAuthErr n "core.get_config" [] false r st _
          { message := some "Not authenticated" } _ _ _ rfl rfl rfl (by decide) (by decide) hr
          (by rw [hst]; exact hl)
        rw [h]
        refine ⟨?_, Or.inr ⟨_, rfl⟩⟩
        simp [countPosts] at hlc ⊢
        omega

set_option maxRecDepth 4000 in
/-- C2 counterexample: against the scenario server, the call performs two
re-login cycles (two auth.login posts) before rejecting with the
AuthenticationError, refuting the claimed cap of at most one cycle. -/
theorem C2_counterexample :
    (exec srvAuthErr 8 (.request "core.get_config" [] false 0) { serverPass := "pw" }).outcome
      = .thrown (.auth "Authentication failed after multiple retries") ∧
    countPosts "auth.login"
      (exec srvAuthErr 8 (.request "core.get_config" [] false 0) { serverPass := "pw" }).posts
      = 2 ∧
    ¬ countPosts "auth.login"
      (exec srvAuthErr 8 (.request "core.get_config" [] false 0) { serverPass := "pw" }).posts
      ≤ 1 :=
  ⟨by rfl, by rfl, by decide⟩

set_option maxRecDepth 4000 in
/-- C2 amended: against a server that perpetually answers core.get_config
with an auth-error-classified message while the auth endpoints respond
normally, the engine performs at most two clear-session-re-login-and-retry
cycles (the internal counter is capped at maxRetries = 2); under any fuel
bound the call can only be unfinished or rejected with an
AuthenticationError, and with sufficient fuel it does reject with
AuthenticationError after exactly two cycles: it never loops indefinitely. -/
theorem C2_auth_retry_capped_at_two :
    (∀ fuel st,
      countPosts "auth.login"
        (exec srvAuthErr fuel (.request "core.get_config" [] false 0) st).posts ≤ 2 ∧
      ((exec srvAuthErr fuel (.request "core.get_config" [] false 0) st).outcome = .fuelOut ∨
       ∃ msg, (exec srvAuthErr fuel (.request "core.get_config" [] false 0) st).outcome =
         .thrown (.auth msg))) ∧
    (exec srvAuthErr 8 (.request "core.get_config" [] false 0) { serverPass := "pw" }).outcome
      = .thrown (.auth "Authentication failed after multiple retries") := by
  constructor
  · intro fuel st
    obtain ⟨hc, ho⟩ := reqA fuel 0 st
    exact ⟨by simpa using hc, ho⟩
  · rfl

/-
  Scenario for claims C3 and C9: core.add_torrent_url answers with an
  already-in-session error payload.
-/

/-- Scenario server: core.add_torrent_url reports the torrent already in
session; every other method succeeds. -/
def srvAlready : Server := fun method _ =>
  if method = "core.add_torrent_url" then
    { status := 200,
      body := { error := some { message := some "Torrent already in session (abc123)" } } }
  else
    { status := 200, body := { result := .jbool true } }

/-- C3 counterexample: when the server answers core.add_torrent_url with an
already-in-session error, DelugeTorrent.addUrl does not resolve: it throws a
TorrentError carrying the raw server message. -/
theorem C3_counterexample :
    (addUrl srvAlready 3 { serverPass := "pw" } "http://example.com/file.torrent"
      none none none).res =
      .thrown (.torrent "Torrent already in session (abc123)" (.jstr "TORRENT_ERROR")) ∧
    ∀ v, (addUrl srvAlready 3 { serverPass := "pw" } "http://example.com/file.torrent"
      none none none).res ≠ .ok v := by
  refine ⟨rfl, fun v h => ?_⟩
  rw [show (addUrl srvAlready 3 { serverPass := "pw" } "http://example.com/file.torrent"
    none none none).res =
    .thrown (.torrent "Torrent already in session (abc123)" (.jstr "TORRENT_ERROR")) from rfl] at h
  cases h

/-- C3 amended: the request layer does return the already-in-session payload
as-is (a non-error success signal), at every fuel bound and in every session
state; DelugeTorrent.addUrl, however, has no special case for it and throws a
TorrentError carrying the server message (the orchestrator layer is what
recognizes already-style errors). -/
theorem C3_request_returns_already_payload :
    (∀ fuel st p, exec srvAlready (fuel + 1) (.request "core.add_torrent_url" p false 0) st =
      ⟨.payload { error := some { message := some "Torrent already in session (abc123)" } }, st,
        [("core.add_torrent_url", p)]⟩) ∧
    (addUrl srvAlready 3 { serverPass := "pw" } "http://example.com/file.torrent"
      none none none).res =
      .thrown (.torrent "Torrent already in session (abc123)" (.jstr "TORRENT_ERROR")) := by
  constructor
  · intro fuel st p
    have h := exec_request_already srvAlready fuel "core.add_torrent_url" p false 0 st
      { status := 200,
        body := { error := some { message := some "Torrent already in session (abc123)" } } }
      { message := some "Torrent already in session (abc123)" } rfl rfl rfl (by decide)
    rw [extractSessionData_none st _ rfl rfl] at h
    exact h
  · rfl

/-
  Scenario for claim C4: core.add_torrent_file answers with an
  already-in-session error payload carrying a hash-shaped substring.
-/

/-- Scenario server family: core.add_torrent_file reports a given error
message; every other method succeeds. -/
def srvFileErr (msg : String) : Server := fun method _ =>
  if method = "core.add_torrent_file" then
    { status := 200, body := { error := some { message := some msg } } }
  else
    { status := 200, body := { result := .jbool true } }

/-- The hash-shaped substring used in the C4 counterexample. -/
def c4hash : String := "0123456789abcdef0123456789abcdef01234567"

/-- C4 counterexample: the error text carries a hash-shaped substring, yet
addFile throws the fixed already-added TorrentError, whose message does not
contain the hash: no hash extraction is attempted. -/
theorem C4_counterexample :
    (addFile (srvFileErr ("Torrent already in session (" ++ c4hash ++ ")")) 3
      { serverPass := "pw" } "ZGF0YQ" "file.torrent" none none).res =
      .thrown (.torrent "Torrent already added to Deluge" (.jstr "ALREADY_EXISTS")) ∧
    strContains "Torrent already added to Deluge" c4hash = false :=
  ⟨by rfl, by decide⟩

/-- C4 amended: addFile classifies every already-in-session error
distinguishably, throwing the fixed TorrentError with message
Torrent already added to Deluge and code ALREADY_EXISTS, independent of any
hash-shaped substring in the error text; it does not attempt hash
extraction. -/
theorem C4_already_exists_classified (msg : String) (fuel : Nat) (st : AuthState)
    (hco : strContains msg "already in session" = true) :
    (addFile (srvFileErr msg) (fuel + 1) st "ZGF0YQ" "file.torrent" none none).res =
      .thrown (.torrent "Torrent already added to Deluge" (.jstr "ALREADY_EXISTS")) := by
  have hmsg : ¬ msg = "" := by
    intro h
    subst h
    exact absurd hco (by decide)
  have hreq := exec_request_already (srvFileErr msg) fuel "core.add_torrent_file"
    [.jstr "file.torrent", .jstr "ZGF0YQ", buildTorrentOptions none] false 0 st
    { status := 200, body := { error := some { message := some msg } } }
    { message := some msg } rfl rfl rfl (by simpa using hco)
  rw [extractSessionData_none st _ rfl rfl] at hreq
  simp [addFile, hreq, msgTruthy, beq_iff_eq, hmsg, hco]

/-- C4 witness: the amended classification at the concrete hash-bearing
message. -/
theorem C4_witness :
    (addFile (srvFileErr ("Torrent already in session (" ++ c4hash ++ ")")) 4
      { serverPass := "pw" } "ZGF0YQ" "file.torrent" none none).res =
      .thrown (.torrent "Torrent already added to Deluge" (.jstr "ALREADY_EXISTS")) :=
  C4_already_exists_classified ("Torrent already in session (" ++ c4hash ++ ")") 3
    { serverPass := "pw" } (by decide)

/-
  Scenario for claim C5: auth.delete_session fails at the HTTP level.
-/

/-- Scenario server: auth.delete_session answers HTTP 500; every other method
succeeds. -/
def srvDel500 : Server := fun method _ =>
  if method = "auth.delete_session" then { status := 500 }
  else { status := 200, body := { result := .jbool true } }

/-- C5 counterexample: when the underlying RPC fails, deleteSession does not
swallow the failure: it rethrows the NetworkError to its caller. -/
theorem C5_counterexample :
    (deleteSession srvDel500 3 { serverPass := "pw" }).res =
      .thrown (.network "HTTP error! status: 500" (some 500)) ∧
    (deleteSession srvDel500 3 { serverPass := "pw" }).res ≠ .ok () := by
  refine ⟨rfl, fun h => ?_⟩
  rw [show (deleteSession srvDel500 3 { serverPass := "pw" }).res =
    .thrown (.network "HTTP error! status: 500" (some 500)) from rfl] at h
  cases h

/-- C5 amended: deleteSession completes and clears the session only when the
underlying auth.delete_session RPC succeeds; any error thrown by the RPC
propagates unchanged to the caller (the catch block logs and rethrows). -/
theorem C5_deleteSession_propagates (srv : Server) (fuel : Nat) (st : AuthState) :
    (∀ e st2 ps, exec srv fuel (.request "auth.delete_session" [] true 0) st = ⟨.thrown e, st2, ps⟩ →
      (deleteSession srv fuel st).res = .thrown e) ∧
    (∀ p st2 ps, exec srv fuel (.request "auth.delete_session" [] true 0) st = ⟨.payload p, st2, ps⟩ →
      (deleteSession srv fuel st).res = .ok () ∧
      (deleteSession srv fuel st).auth = clearSession st2) := by
  constructor
  · intro e st2 ps h
    simp [deleteSession, h]
  · intro p st2 ps h
    simp [deleteSession, h]

/-- C5 witness: the propagation direction applied at the concrete failing
server. -/
theorem C5_witness :
    (deleteSession srvDel500 4 { serverPass := "pw" }).res =
      .thrown (.network "HTTP error! status: 500" (some 500)) :=
  (C5_deleteSession_propagates srvDel500 4 { serverPass := "pw" }).1
    (.network "HTTP error! status: 500" (some 500)) { serverPass := "pw" }
    [("auth.delete_session", [])] (by rfl)

/-
  Claim C6: the headers built for every request.
-/

/-- A session state holding a full stored cookie string and its extracted
session id. -/
def stWithCookie : AuthState :=
  { serverPass := "pw", sessionCookie := some "_session_id=abc123; Expires=Fri",
    sessionId := some "abc123" }

/-- A session state holding only a bare session id. -/
def stWithSessionId : AuthState :=
  { serverPass := "pw", sessionId := some "abc123" }

/-- C6 counterexample: with a live session cookie (or a bare session id)
stored, buildHeaders still attaches no Cookie header. -/
theorem C6_counterexample :
    (buildHeaders stWithCookie).lookup "Cookie" = none ∧
    (buildHeaders stWithSessionId).lookup "Cookie" = none :=
  ⟨rfl, rfl⟩

/-- C6 amended: the headers always carry Content-Type and Accept of
application/json; the CSRF token, when present, is attached as the
X-Deluge-Token header; no Cookie header is ever attached (the source defers
cookie handling to the browser rather than setting the forbidden header). -/
theorem C6_headers (st : AuthState) :
    (buildHeaders st).lookup "Content-Type" = some "application/json" ∧
    (buildHeaders st).lookup "Accept" = some "application/json" ∧
    (buildHeaders st).lookup "Cookie" = none ∧
    (∀ t, st.csrfToken = some t → (buildHeaders st).lookup "X-Deluge-Token" = some t) ∧
    (st.csrfToken = none → (buildHeaders st).lookup "X-Deluge-Token" = none) := by
  cases hc : st.csrfToken with
  | none => simp [buildHeaders, hc, List.lookup]
  | some tok => simp [buildHeaders, hc, List.lookup]

/-- C6 witness: the header characterization at concrete states with and
without a CSRF token. -/
theorem C6_witness :
    (buildHeaders { serverPass := "pw", csrfToken := some "tok123" }).lookup "X-Deluge-Token"
      = some "tok123" ∧
    (buildHeaders { serverPass := "pw" }).lookup "X-Deluge-Token" = none :=
  ⟨(C6_headers { serverPass := "pw", csrfToken := some "tok123" }).2.2.2.1 "tok123" rfl,
   (C6_headers { serverPass := "pw" }).2.2.2.2 rfl⟩

/-
  Claim C9: the ids of the JSON-RPC envelopes. The id of every request is the
  string form of Date.now() at the time of the call; a verified decimal
  parser shows these strings determine the clock value.
-/

/-- Numeric value of a decimal digit character. -/
def digitVal (c : Char) : Nat := c.toNat - 48

/-- Decimal reading of a character list. -/
def parseDigits (l : List Char) : Nat := l.foldl (fun a c => 10 * a + digitVal c) 0

theorem toDigitsCore_acc (fuel : Nat) : ∀ (n : Nat) (ds : List Char),
    Nat.toDigitsCore 10 fuel n ds = Nat.toDigitsCore 10 fuel n [] ++ ds := by
  induction fuel with
  | zero => intro n ds; simp [Nat.toDigitsCore]
  | succ f ih =>
    intro n ds
    simp only [Nat.toDigitsCore]
    by_cases h : n / 10 = 0
    · simp [h]
    · simp only [h, if_false]
      rw [ih (n / 10) (Nat.digitChar (n % 10) :: ds), ih (n / 10) [Nat.digitChar (n % 10)]]
      simp

theorem toDigitsCore_fuel : ∀ (n f1 f2 : Nat), n < f1 → n < f2 →
    Nat.toDigitsCore 10 f1 n [] = Nat.toDigitsCore 10 f2 n [] := by
  intro n
  induction n using Nat.strong_induction_on with
  | _ n ih =>
    intro f1 f2 h1 h2
    match f1, f2 with
    | f1 + 1, f2 + 1 =>
      simp only [Nat.toDigitsCore]
      by_cases h : n / 10 = 0
      · simp [h]
      · simp only [h, if_false]
        have hn : 0 < n := by
          rcases Nat.eq_zero_or_pos n with h0 | h0
          · subst h0; simp at h
          · exact h0
        have hd : n / 10 < n := Nat.div_lt_self hn (by norm_num)
        rw [toDigitsCore_acc f1 (n / 10), toDigitsCore_acc f2 (n / 10)]
        rw [ih (n / 10) hd f1 f2 (by omega) (by omega)]

theorem digitVal_digitChar (k : Nat) (h : k < 10) : digitVal (Nat.digitChar k) = k := by
  interval_cases k <;> rfl

theorem parse_toDigits : ∀ n : Nat, parseDigits (Nat.toDigits 10 n) = n := by
  intro n
  induction n using Nat.strong_induction_on with
  | _ n ih =>
    show parseDigits (Nat.toDigitsCore 10 (n + 1) n []) = n
    simp only [Nat.toDigitsCore]
    by_cases h : n / 10 = 0
    · have hlt : n < 10 := by
        rcases Nat.lt_or_ge n 10 with hl | hg
        · exact hl
        · exact absurd h (by
            have : 0 < n / 10 := Nat.div_pos hg (by norm_num)
            omega)
      simp only [h, if_true]
      have hone : parseDigits [Nat.digitChar (n % 10)] = digitVal (Nat.digitChar (n % 10)) := by
        simp [parseDigits]
      rw [hone, digitVal_digitChar (n % 10) (Nat.mod_lt n (by norm_num))]
      exact Nat.mod_eq_of_lt hlt
    · simp only [h, if_false]
      have hn : 0 < n := by
        rcases Nat.eq_zero_or_pos n with h0 | h0
        · subst h0; simp at h
        · exact h0
      have hd : n / 10 < n := Nat.div_lt_self hn (by norm_num)
      rw [toDigitsCore_acc n (n / 10),
        toDigitsCore_fuel (n / 10) n (n / 10 + 1) (by omega) (by omega)]
      have hparse : parseDigits (Nat.toDigits 10 (n / 10) ++ [Nat.digitChar (n % 10)]) =
          10 * parseDigits (Nat.toDigits 10 (n / 10)) + digitVal (Nat.digitChar (n % 10)) := by
        simp [parseDigits, List.foldl_append]
      rw [show Nat.toDigitsCore 10 (n / 10 + 1) (n / 10) [] = Nat.toDigits 10 (n / 10) from rfl]
      rw [hparse, ih (n / 10) hd, digitVal_digitChar (n % 10) (Nat.mod_lt n (by norm_num))]
      omega

theorem natRepr_injective (m n : Nat) (h : Nat.repr m = Nat.repr n) : m = n := by
  have hl : Nat.toDigits 10 m = Nat.toDigits 10 n := by
    have hd := congrArg String.data h
    simpa [Nat.repr, List.asString] using hd
  have hp := congrArg parseDigits hl
  rwa [parse_toDigits, parse_toDigits] at hp

/-- C9 amended: every request id is the string form of Date.now() at call
time, so the ids of two wire requests agree exactly when the clock values at
the two posts agree; distinctness of ids is therefore guaranteed only across
distinct milliseconds, not per request. -/
theorem C9_id_is_clock (m1 : String) (p1 : List JVal) (t1 : Nat)
    (m2 : String) (p2 : List JVal) (t2 : Nat) :
    (mkRequestBody m1 p1 t1).id = (mkRequestBody m2 p2 t2).id ↔ t1 = t2 := by
  constructor
  · intro h
    exact natRepr_injective t1 t2 h
  · intro h
    simp [mkRequestBody, h]

/-- An actual run of the request engine whose trace holds several posts. -/
def c9run : RunResult :=
  exec srvAuthErr 8 (.request "core.get_config" [] false 0) { serverPass := "pw" }

/-- The wire envelopes of that run when every post happens in the same
millisecond. -/
def c9bodies : List RpcRequest := wireRequests (fun _ => 1700) c9run.posts

set_option maxRecDepth 4000 in
/-- C9 counterexample: in a run whose posts share one millisecond, the first
two wire requests are distinct requests (different methods) carrying the same
id, refuting the distinct-id invariant. -/
theorem C9_counterexample :
    c9bodies.get? 0 = some ⟨"core.get_config", [], "1700"⟩ ∧
    c9bodies.get? 1 = some ⟨"auth.check_session", [], "1700"⟩ ∧
    (⟨"core.get_config", [], "1700"⟩ : RpcRequest).method ≠
      (⟨"auth.check_session", [], "1700"⟩ : RpcRequest).method ∧
    (⟨"core.get_config", [], "1700"⟩ : RpcRequest).id =
      (⟨"auth.check_session", [], "1700"⟩ : RpcRequest).id :=
  ⟨by rfl, by rfl, by decide, rfl⟩



theorem exec_request_marker403 (srv : Server) (fuel : Nat) (m : String) (p : List JVal)
    (s : Bool) (r : Nat) (st : AuthState) (resp : HttpResponse)
    (h1 : srv m p = resp) (h2 : resp.okStatus = true)
    (h3 : resp.body.error = none) (h4 : (resp.body.status == some 403) = true) :
    exec srv (fuel + 1) (.request m p s r) st =
      ⟨.thrown (.network "Access denied by remote server" (some 403)),
        extractSessionData st resp, [(m, p)]⟩ := by
  simp [exec, h1, h2, h3, h4]

/-- Scenario server family for claim C7: the three label RPCs answer with
three given payloads; every other method succeeds. -/
def srvLabels (p1 p2 p3 : DelugeResponse) : Server := fun method _ =>
  if method = "label.get_labels" then { status := 200, body := p1 }
  else if method = "label.get_config" then { status := 200, body := p2 }
  else if method = "labelplus.get_labels" then { status := 200, body := p3 }
  else { status := 200, body := { result := .jbool true } }

/-- A reply payload that does not trigger the auth-error re-login machinery
of the request engine. -/
def noAuthTrigger (p : DelugeResponse) : Bool :=
  match p.error with
  | none => true
  | some e => ! isAuthErrorMessage (e.message.getD "")

/-- Does the request engine hand this HTTP-200 payload back to the caller
(rather than throwing)? True for error-free payloads without the 403 marker
and for already-in-session errors. -/
def rpcReturns (p : DelugeResponse) : Bool :=
  match p.error with
  | some e => strContains (e.message.getD "") "already in session"
  | none => ! (p.status == some 403)

/-- The nonempty label list the standard strategy yields, when any. -/
def stdExtract (p : DelugeResponse) : Option (List JVal) :=
  if rpcReturns p then
    match p.result with
    | .jarr xs => if 0 < xs.length then some xs else none
    | _ => none
  else none

/-- The nonempty label list the legacy strategy yields, when any. -/
def legacyExtract (p : DelugeResponse) : Option (List JVal) :=
  if rpcReturns p && p.result.truthy then
    match p.result.getField "labels" with
    | .jarr xs => if 0 < xs.length then some xs else none
    | _ => none
  else none

/-- The nonempty label list the LabelPlus strategy yields, when any. -/
def lpExtract (p : DelugeResponse) : Option (List JVal) :=
  if rpcReturns p && p.result.truthy && typeofObjectNonNull p.result then
    let names := ((jsObjectValues p.result).filterMap labelPlusName).map JVal.jstr
    if 0 < names.length then some names else none
  else none

/-- The labels getLabels should produce per the claim: first strategy with a
nonempty yield wins, in strict order, with the empty default. -/
def labelsSpec (p1 p2 p3 : DelugeResponse) : List JVal :=
  match stdExtract p1 with
  | some xs => xs
  | none =>
    match legacyExtract p2 with
    | some xs => xs
    | none =>
      match lpExtract p3 with
      | some xs => xs
      | none => []

/-- The RPCs getLabels should attempt per the claim, in order, stopping at
the first nonempty yield. -/
def labelPostsSpec (p1 p2 : DelugeResponse) (_p3 : DelugeResponse) : List String :=
  "label.get_labels" ::
    (match stdExtract p1 with
     | some _ => []
     | none =>
       "label.get_config" ::
         (match legacyExtract p2 with
          | some _ => []
          | none => ["labelplus.get_labels"]))

/-- A strategy result that makes getLabels fall through: an empty list or a
throw. -/
def fallsThrough (res : DRes (List JVal)) : Prop :=
  (∃ ls, res = .ok ls ∧ ls.length = 0) ∨ (∃ e, res = .thrown e)

/-- How each strategy run relates to its extract: either the extract is a
nonempty list returned as-is, or the extract is empty and the run falls
through. -/
def strategyMatches (_p : DelugeResponse) (extract : Option (List JVal))
    (res : DRes (List JVal)) : Prop :=
  (∃ xs, extract = some xs ∧ res = .ok xs ∧ 0 < xs.length) ∨
  (extract = none ∧ fallsThrough res)

theorem tryStd_spec (p1 p2 p3 : DelugeResponse) (fuel : Nat) (st : AuthState)
    (h : noAuthTrigger p1 = true) :
    ∃ res, tryStandardLabels (srvLabels p1 p2 p3) (fuel + 1) st =
        ⟨res, st, [("label.get_labels", [])]⟩ ∧
      strategyMatches p1 (stdExtract p1) res := by
  have hresp : srvLabels p1 p2 p3 "label.get_labels" [] = { status := 200, body := p1 } := rfl
  rcases hpe : p1.error with _ | e
  · by_cases hs : (p1.status == some 403) = true
    · have hx := exec_request_marker403 (srvLabels p1 p2 p3) fuel "label.get_labels" [] false 0 st
        _ hresp rfl hpe hs
      rw [extractSessionData_none st _ rfl rfl] at hx
      refine ⟨.thrown (.network "Access denied by remote server" (some 403)),
        by simp [tryStandardLabels, hx], Or.inr ⟨?_, Or.inr ⟨_, rfl⟩⟩⟩
      simp [stdExtract, rpcReturns, hpe, hs]
    · have hs2 : (p1.status == some 403) = false := by
        cases hb : (p1.status == some 403)
        · rfl
        · exact absurd hb hs
      have hx := exec_request_success (srvLabels p1 p2 p3) fuel "label.get_labels" [] false 0 st
        _ hresp rfl hpe hs2
      rw [extractSessionData_none st _ rfl rfl] at hx
      rcases hr : p1.result with _ | b | n | s2 | xs | fs
      rotate_left 4
      · by_cases hlen : 0 < xs.length
        · exact ⟨.ok xs, by simp [tryStandardLabels, hx, hr],
            Or.inl ⟨xs, by simp [stdExtract, rpcReturns, hpe, hs2, hr, hlen], rfl, hlen⟩⟩
        · exact ⟨.ok xs, by simp [tryStandardLabels, hx, hr],
            Or.inr ⟨by simp [stdExtract, rpcReturns, hpe, hs2, hr, hlen],
              Or.inl ⟨xs, rfl, by omega⟩⟩⟩
      all_goals
        exact ⟨.ok [], by simp [tryStandardLabels, hx, hr, hpe],
          Or.inr ⟨by simp [stdExtract, rpcReturns, hpe, hs2, hr], Or.inl ⟨[], rfl, rfl⟩⟩⟩
  · by_cases hal : strContains (e.message.getD "") "already in session" = true
    · have hx := exec_request_already (srvLabels p1 p2 p3) fuel "label.get_labels" [] false 0 st
        _ e hresp rfl hpe hal
      rw [extractSessionData_none st _ rfl rfl] at hx
      rcases hr : p1.result with _ | b | n | s2 | xs | fs
      rotate_left 4
      · by_cases hlen : 0 < xs.length
        · exact ⟨.ok xs, by simp [tryStandardLabels, hx, hr],
            Or.inl ⟨xs, by simp [stdExtract, rpcReturns, hpe, hal, hr, hlen], rfl, hlen⟩⟩
        · exact ⟨.ok xs, by simp [tryStandardLabels, hx, hr],
            Or.inr ⟨by simp [stdExtract, rpcReturns, hpe, hal, hr, hlen],
              Or.inl ⟨xs, rfl, by omega⟩⟩⟩
      all_goals
        exact ⟨.thrown (.generic ("Standard method failed: " ++ jsConcat e.message)),
          by simp [tryStandardLabels, hx, hr, hpe],
          Or.inr ⟨by simp [stdExtract, rpcReturns, hpe, hal, hr], Or.inr ⟨_, rfl⟩⟩⟩
    · have hal2 : strContains (e.message.getD "") "already in session" = false := by
        cases hb : strContains (e.message.getD "") "already in session"
        · rfl
        · exact absurd hb hal
      have hauth : isAuthErrorMessage (e.message.getD "") = false := by
        simp [noAuthTrigger, hpe] at h
        exact h
      have hx := exec_request_genericError (srvLabels p1 p2 p3) fuel "label.get_labels" [] false 0
        st _ e hresp rfl hpe hal2 hauth
      rw [extractSessionData_none st _ rfl rfl] at hx
      exact ⟨.thrown (.generic (jsOrElse e.message "Unknown server error")),
        by simp [tryStandardLabels, hx],
        Or.inr ⟨by simp [stdExtract, rpcReturns, hpe, hal2], Or.inr ⟨_, rfl⟩⟩⟩


theorem tryLegacy_spec (p1 p2 p3 : DelugeResponse) (fuel : Nat) (st : AuthState)
    (h : noAuthTrigger p2 = true) :
    ∃ res, tryLegacyLabels (srvLabels p1 p2 p3) (fuel + 1) st =
        ⟨res, st, [("label.get_config", [])]⟩ ∧
      strategyMatches p2 (legacyExtract p2) res := by
  have hresp : srvLabels p1 p2 p3 "label.get_config" [] = { status := 200, body := p2 } := rfl
  have hfalls : ∀ res2 : DRes (List JVal),
      tryLegacyLabels (srvLabels p1 p2 p3) (fuel + 1) st =
        ⟨res2, st, [("label.get_config", [])]⟩ →
      legacyExtract p2 = none → fallsThrough res2 →
      ∃ res, tryLegacyLabels (srvLabels p1 p2 p3) (fuel + 1) st =
          ⟨res, st, [("label.get_config", [])]⟩ ∧
        strategyMatches p2 (legacyExtract p2) res :=
    fun res2 he hex hf => ⟨res2, he, Or.inr ⟨hex, hf⟩⟩
  rcases hpe : p2.error with _ | e
  · by_cases hs : (p2.status == some 403) = true
    · have hx := exec_request_marker403 (srvLabels p1 p2 p3) fuel "label.get_config" [] false 0 st
        _ hresp rfl hpe hs
      rw [extractSessionData_none st _ rfl rfl] at hx
      exact hfalls (.thrown (.network "Access denied by remote server" (some 403)))
        (by simp [tryLegacyLabels, hx])
        (by simp [legacyExtract, rpcReturns, hpe, hs]) (Or.inr ⟨_, rfl⟩)
    · have hs2 : (p2.status == some 403) = false := by
        cases hb : (p2.status == some 403)
        · rfl
        · exact absurd hb hs
      have hx := exec_request_success (srvLabels p1 p2 p3) fuel "label.get_config" [] false 0 st
        _ hresp rfl hpe hs2
      rw [extractSessionData_none st _ rfl rfl] at hx
      by_cases ht : p2.result.truthy = true
      · rcases hg : p2.result.getField "labels" with _ | b | n | s2 | xs | fs
        rotate_left 4
        · by_cases hlen : 0 < xs.length
          · exact ⟨.ok xs, by simp [tryLegacyLabels, hx, ht, hg],
              Or.inl ⟨xs, by simp [legacyExtract, rpcReturns, hpe, hs2, ht, hg, hlen], rfl, hlen⟩⟩
          · exact hfalls (.ok xs) (by simp [tryLegacyLabels, hx, ht, hg])
              (by simp [legacyExtract, rpcReturns, hpe, hs2, ht, hg, hlen])
              (Or.inl ⟨xs, rfl, by omega⟩)
        all_goals
          exact hfalls (.thrown (.generic "Legacy method returned no labels"))
            (by simp [tryLegacyLabels, hx, ht, hg])
            (by simp [legacyExtract, rpcReturns, hpe, hs2, ht, hg]) (Or.inr ⟨_, rfl⟩)
      · have ht2 : p2.result.truthy = false := by
          cases hb : p2.result.truthy
          · rfl
          · exact absurd hb ht
        exact hfalls (.thrown (.generic "Legacy method returned no labels"))
          (by simp [tryLegacyLabels, hx, ht2])
          (by simp [legacyExtract, rpcReturns, hpe, hs2, ht2]) (Or.inr ⟨_, rfl⟩)
  · by_cases hal : strContains (e.message.getD "") "already in session" = true
    · have hx := exec_request_already (srvLabels p1 p2 p3) fuel "label.get_config" [] false 0 st
        _ e hresp rfl hpe hal
      rw [extractSessionData_none st _ rfl rfl] at hx
      by_cases ht : p2.result.truthy = true
      · rcases hg : p2.result.getField "labels" with _ | b | n | s2 | xs | fs
        rotate_left 4
        · by_cases hlen : 0 < xs.length
          · exact ⟨.ok xs, by simp [tryLegacyLabels, hx, ht, hg],
              Or.inl ⟨xs, by simp [legacyExtract, rpcReturns, hpe, hal, ht, hg, hlen], rfl, hlen⟩⟩
          · exact hfalls (.ok xs) (by simp [tryLegacyLabels, hx, ht, hg])
              (by simp [legacyExtract, rpcReturns, hpe, hal, ht, hg, hlen])
              (Or.inl ⟨xs, rfl, by omega⟩)
        all_goals
          exact hfalls (.thrown (.generic "Legacy method returned no labels"))
            (by simp [tryLegacyLabels, hx, ht, hg])
            (by simp [legacyExtract, rpcReturns, hpe, hal, ht, hg]) (Or.inr ⟨_, rfl⟩)
      · have ht2 : p2.result.truthy = false := by
          cases hb : p2.result.truthy
          · rfl
          · exact absurd hb ht
        exact hfalls (.thrown (.generic "Legacy method returned no labels"))
          (by simp [tryLegacyLabels, hx, ht2])
          (by simp [legacyExtract, rpcReturns, hpe, hal, ht2]) (Or.inr ⟨_, rfl⟩)
    · have hal2 : strContains (e.message.getD "") "already in session" = false := by
        cases hb : strContains (e.message.getD "") "already in session"
        · rfl
        · exact absurd hb hal
      have hauth : isAuthErrorMessage (e.message.getD "") = false := by
        simp [noAuthTrigger, hpe] at h
        exact h
      have hx := exec_request_genericError (srvLabels p1 p2 p3) fuel "label.get_config" [] false 0
        st _ e hresp rfl hpe hal2 hauth
      rw [extractSessionData_none st _ rfl rfl] at hx
      exact hfalls (.thrown (.generic (jsOrElse e.message "Unknown server error")))
        (by simp [tryLegacyLabels, hx])
        (by simp [legacyExtract, rpcReturns, hpe, hal2]) (Or.inr ⟨_, rfl⟩)

theorem tryLp_spec (p1 p2 p3 : DelugeResponse) (fuel : Nat) (st : AuthState)
    (h : noAuthTrigger p3 = true) :
    ∃ res, tryLabelPlusLabels (srvLabels p1 p2 p3) (fuel + 1) st =
        ⟨res, st, [("labelplus.get_labels", [])]⟩ ∧
      strategyMatches p3 (lpExtract p3) res := by
  have hresp : srvLabels p1 p2 p3 "labelplus.get_labels" [] = { status := 200, body := p3 } := rfl
  have hfalls : ∀ res2 : DRes (List JVal),
      tryLabelPlusLabels (srvLabels p1 p2 p3) (fuel + 1) st =
        ⟨res2, st, [("labelplus.get_labels", [])]⟩ →
      lpExtract p3 = none → fallsThrough res2 →
      ∃ res, tryLabelPlusLabels (srvLabels p1 p2 p3) (fuel + 1) st =
          ⟨res, st, [("labelplus.get_labels", [])]⟩ ∧
        strategyMatches p3 (lpExtract p3) res :=
    fun res2 he hex hf => ⟨res2, he, Or.inr ⟨hex, hf⟩⟩
  rcases hpe : p3.error with _ | e
  · by_cases hs : (p3.status == some 403) = true
    · have hx := exec_request_marker403 (srvLabels p1 p2 p3) fuel "labelplus.get_labels" [] false 0
        st _ hresp rfl hpe hs
      rw [extractSessionData_none st _ rfl rfl] at hx
      exact hfalls (.thrown (.network "Access denied by remote server" (some 403)))
        (by simp [tryLabelPlusLabels, hx])
        (by simp [lpExtract, rpcReturns, hpe, hs]) (Or.inr ⟨_, rfl⟩)
    · have hs2 : (p3.status == some 403) = false := by
        cases hb : (p3.status == some 403)
        · rfl
        · exact absurd hb hs
      have hx := exec_request_success (srvLabels p1 p2 p3) fuel "labelplus.get_labels" [] false 0 st
        _ hresp rfl hpe hs2
      rw [extractSessionData_none st _ rfl rfl] at hx
      by_cases hc : (p3.result.truthy && typeofObjectNonNull p3.result) = true
      · have hcond : (rpcReturns p3 && p3.result.truthy && typeofObjectNonNull p3.result)
            = true := by
          rw [Bool.and_assoc, hc]
          simp [rpcReturns, hpe, hs2]
        by_cases hlen :
          0 < (((jsObjectValues p3.result).filterMap labelPlusName).map JVal.jstr).length
        · exact ⟨.ok (((jsObjectValues p3.result).filterMap labelPlusName).map JVal.jstr),
            by simp [tryLabelPlusLabels, hx, hc],
            Or.inl ⟨_, by simp only [lpExtract, hcond, if_true]; rw [if_pos hlen], rfl, hlen⟩⟩
        · exact hfalls (.ok (((jsObjectValues p3.result).filterMap labelPlusName).map JVal.jstr))
            (by simp [tryLabelPlusLabels, hx, hc])
            (by simp only [lpExtract, hcond, if_true]; rw [if_neg hlen])
            (Or.inl ⟨_, rfl, by omega⟩)
      · exact hfalls (.thrown (.generic "LabelPlus method returned no labels"))
          (by simp [tryLabelPlusLabels, hx, hc])
          (by
            have hcond : (rpcReturns p3 && p3.result.truthy && typeofObjectNonNull p3.result)
                = false := by
              rw [Bool.and_assoc]
              cases hb : (p3.result.truthy && typeofObjectNonNull p3.result)
              · simp
              · exact absurd hb hc
            simp [lpExtract, hcond]) (Or.inr ⟨_, rfl⟩)
  · by_cases hal : strContains (e.message.getD "") "already in session" = true
    · have hx := exec_request_already (srvLabels p1 p2 p3) fuel "labelplus.get_labels" [] false 0
        st _ e hresp rfl hpe hal
      rw [extractSessionData_none st _ rfl rfl] at hx
      by_cases hc : (p3.result.truthy && typeofObjectNonNull p3.result) = true
      · have hcond : (rpcReturns p3 && p3.result.truthy && typeofObjectNonNull p3.result)
            = true := by
          rw [Bool.and_assoc, hc]
          simp [rpcReturns, hpe, hal]
        by_cases hlen :
          0 < (((jsObjectValues p3.result).filterMap labelPlusName).map JVal.jstr).length
        · exact ⟨.ok (((jsObjectValues p3.result).filterMap labelPlusName).map JVal.jstr),
            by simp [tryLabelPlusLabels, hx, hc],
            Or.inl ⟨_, by simp only [lpExtract, hcond, if_true]; rw [if_pos hlen], rfl, hlen⟩⟩
        · exact hfalls (.ok (((jsObjectValues p3.result).filterMap labelPlusName).map JVal.jstr))
            (by simp [tryLabelPlusLabels, hx, hc])
            (by simp only [lpExtract, hcond, if_true]; rw [if_neg hlen])
            (Or.inl ⟨_, rfl, by omega⟩)
      · exact hfalls (.thrown (.generic "LabelPlus method returned no labels"))
          (by simp [tryLabelPlusLabels, hx, hc])
          (by
            have hcond : (rpcReturns p3 && p3.result.truthy && typeofObjectNonNull p3.result)
                = false := by
              rw [Bool.and_assoc]
              cases hb : (p3.result.truthy && typeofObjectNonNull p3.result)
              · simp
              · exact absurd hb hc
            simp [lpExtract, hcond]) (Or.inr ⟨_, rfl⟩)
    · have hal2 : strContains (e.message.getD "") "already in session" = false := by
        cases hb : strContains (e.message.getD "") "already in session"
        · rfl
        · exact absurd hb hal
      have hauth : isAuthErrorMessage (e.message.getD "") = false := by
        simp [noAuthTrigger, hpe] at h
        exact h
      have hx := exec_request_genericError (srvLabels p1 p2 p3) fuel "labelplus.get_labels" []
        false 0 st _ e hresp rfl hpe hal2 hauth
      rw [extractSessionData_none st _ rfl rfl] at hx
      exact hfalls (.thrown (.generic (jsOrElse e.message "Unknown server error")))
        (by simp [tryLabelPlusLabels, hx])
        (by simp [lpExtract, rpcReturns, hpe, hal2]) (Or.inr ⟨_, rfl⟩)

theorem phase3_spec (p1 p2 p3 : DelugeResponse) (fuel : Nat) (st : AuthState)
    (acc : List (String × List JVal)) (h : noAuthTrigger p3 = true) :
    (getLabelsPhase3 (srvLabels p1 p2 p3) (fuel + 1) st acc).res =
      .ok (match lpExtract p3 with | some xs => xs | none => []) ∧
    (getLabelsPhase3 (srvLabels p1 p2 p3) (fuel + 1) st acc).posts =
      acc ++ [("labelplus.get_labels", [])] := by
  obtain ⟨res, he, hm⟩ := tryLp_spec p1 p2 p3 fuel st h
  rcases hm with ⟨xs, hex, hres, hlen⟩ | ⟨hex, hfall⟩
  · subst hres
    constructor
    · simp [getLabelsPhase3, he, hlen, hex]
    · simp [getLabelsPhase3, he, hlen]
  · rcases hfall with ⟨ls, hres, hl0⟩ | ⟨e, hres⟩
    · subst hres
      have hnl : ¬ 0 < ls.length := by omega
      constructor
      · simp [getLabelsPhase3, he, hnl, hex]
      · simp [getLabelsPhase3, he, hnl]
    · subst hres
      constructor
      · simp [getLabelsPhase3, he, hex]
      · simp [getLabelsPhase3, he]

theorem phase2_spec (p1 p2 p3 : DelugeResponse) (fuel : Nat) (st : AuthState)
    (acc : List (String × List JVal))
    (h2 : noAuthTrigger p2 = true) (h3 : noAuthTrigger p3 = true) :
    (getLabelsPhase2 (srvLabels p1 p2 p3) (fuel + 1) st acc).res =
      .ok (match legacyExtract p2 with
        | some xs => xs
        | none => match lpExtract p3 with | some xs => xs | none => []) ∧
    (getLabelsPhase2 (srvLabels p1 p2 p3) (fuel + 1) st acc).posts =
      acc ++ [("label.get_config", [])] ++
        (match legacyExtract p2 with
         | some _ => []
         | none => [("labelplus.get_labels", [])]) := by
  obtain ⟨res, he, hm⟩ := tryLegacy_spec p1 p2 p3 fuel st h2
  rcases hm with ⟨xs, hex, hres, hlen⟩ | ⟨hex, hfall⟩
  · subst hres
    constructor
    · simp [getLabelsPhase2, he, hlen, hex]
    · simp [getLabelsPhase2, he, hlen, hex]
  · obtain ⟨hp3res, hp3posts⟩ := phase3_spec p1 p2 p3 fuel st
      (acc ++ [("label.get_config", [])]) h3
    rcases hfall with ⟨ls, hres, hl0⟩ | ⟨e, hres⟩
    · subst hres
      have hnl : ¬ 0 < ls.length := by omega
      constructor
      · simp [getLabelsPhase2, he, hnl, hex, hp3res]
      · simp only [getLabelsPhase2, he, hnl, if_false, hex]
        simpa using hp3posts
    · subst hres
      constructor
      · simp [getLabelsPhase2, he, hex, hp3res]
      · simp only [getLabelsPhase2, he, hex]
        simpa using hp3posts

/-- C7: getLabels tries the three label strategies in strict order
(label.get_labels, then label.get_config, then labelplus.get_labels); a
throw or an empty or malformed result from one strategy falls through to the
next, the first nonempty yield wins, and when all three fail or come back
empty the call still succeeds with the empty list instead of throwing. The
post trace equals the claim-shaped schedule labelPostsSpec and the result
equals the claim-shaped labelsSpec, for arbitrary reply payloads that do not
trigger the auth re-login machinery. -/
theorem C7_getLabels_fallback (p1 p2 p3 : DelugeResponse) (fuel : Nat) (st : AuthState)
    (h1 : noAuthTrigger p1 = true) (h2 : noAuthTrigger p2 = true)
    (h3 : noAuthTrigger p3 = true) :
    (getLabels (srvLabels p1 p2 p3) (fuel + 1) st).res = .ok (labelsSpec p1 p2 p3) ∧
    postMethods (getLabels (srvLabels p1 p2 p3) (fuel + 1) st).posts =
      labelPostsSpec p1 p2 p3 := by
  obtain ⟨res, he, hm⟩ := tryStd_spec p1 p2 p3 fuel st h1
  rcases hm with ⟨xs, hex, hres, hlen⟩ | ⟨hex, hfall⟩
  · subst hres
    constructor
    · simp [getLabels, he, hlen, labelsSpec, hex]
    · simp [getLabels, he, hlen, labelPostsSpec, hex, postMethods]
  · obtain ⟨hp2res, hp2posts⟩ := phase2_spec p1 p2 p3 fuel st
      [("label.get_labels", [])] h2 h3
    rcases hfall with ⟨ls, hres, hl0⟩ | ⟨e, hres⟩
    · subst hres
      have hnl : ¬ 0 < ls.length := by omega
      constructor
      · simp [getLabels, he, hnl, labelsSpec, hex, hp2res]
      · simp only [getLabels, he, hnl, if_false]
        simp [hp2posts, labelPostsSpec, hex, postMethods]
        rcases legacyExtract p2 with _ | v <;> simp
    · subst hres
      constructor
      · simp [getLabels, he, labelsSpec, hex, hp2res]
      · simp only [getLabels, he]
        simp [hp2posts, labelPostsSpec, hex, postMethods]
        rcases legacyExtract p2 with _ | v <;> simp


/-- First-strategy payload for the C7 witness: a server error, so the
standard strategy throws. -/
def p1c : DelugeResponse := { error := some { message := some "Unknown method" } }

/-- Second-strategy payload for the C7 witness: a legacy config object with
two labels. -/
def p2c : DelugeResponse := { result := .jobj [("labels", .jarr [.jstr "tv", .jstr "films"])] }

/-- Third-strategy payload for the C7 witness (never reached in the first
scenario). -/
def p3c : DelugeResponse := { result := .jbool true }

/-- All-failing payloads for the C7 witness second scenario. -/
def pf1 : DelugeResponse := { error := some { message := some "boom" } }

def pf2 : DelugeResponse := { result := .jbool false }

def pf3 : DelugeResponse := { result := .jstr "x" }

/-- C7 witness: when the standard strategy throws and the legacy strategy
yields labels, getLabels returns them after posting exactly the first two
RPCs in order; when all three strategies fail, getLabels returns the empty
list after posting all three RPCs in order. -/
theorem C7_witness :
    (getLabels (srvLabels p1c p2c p3c) 2 { serverPass := "pw" }).res =
      .ok [.jstr "tv", .jstr "films"] ∧
    postMethods (getLabels (srvLabels p1c p2c p3c) 2 { serverPass := "pw" }).posts =
      ["label.get_labels", "label.get_config"] ∧
    (getLabels (srvLabels pf1 pf2 pf3) 2 { serverPass := "pw" }).res = .ok [] ∧
    postMethods (getLabels (srvLabels pf1 pf2 pf3) 2 { serverPass := "pw" }).posts =
      ["label.get_labels", "label.get_config", "labelplus.get_labels"] := by
  obtain ⟨ha, hb⟩ := C7_getLabels_fallback p1c p2c p3c 1 { serverPass := "pw" }
    (by decide) (by decide) (by decide)
  obtain ⟨hc, hd⟩ := C7_getLabels_fallback pf1 pf2 pf3 1 { serverPass := "pw" }
    (by decide) (by decide) (by decide)
  exact ⟨ha, hb, hc, hd⟩

/-- C9 witness: two distinct same-millisecond requests share an id. -/
theorem C9_witness :
    (mkRequestBody "core.get_config" [] 1700).id =
      (mkRequestBody "auth.login" [.jstr "pw"] 1700).id :=
  (C9_id_is_clock "core.get_config" [] 1700 "auth.login" [.jstr "pw"] 1700).mpr rfl

/-- A daemon-side scenario: the attachable hosts and, per host id, the
status reported by web.get_host_status, the listed address, the daemon
version, and whether the start and connect RPCs succeed. -/
structure DaemonScenario where
  hostIds : List String
  ipOf : String → String
  portOf : String → Int
  statusOf : String → String
  versionOf : String → String
  startOk : String → Bool
  connectOk : String → Bool

/-- The host tuple the web UI lists for one host id. -/
def hostEntry (sc : DaemonScenario) (id : String) : JVal :=
  .jarr [.jstr id, .jstr (sc.ipOf id), .jnum (sc.portOf id), .jstr (sc.statusOf id)]

/-- The server realizing a daemon scenario: get_hosts lists the hosts,
get_host_status reports the per-host status triple, and start_daemon and
connect succeed or answer HTTP 500 per the scenario. -/
def srvDaemon (sc : DaemonScenario) : Server := fun method params =>
  if method = "web.get_hosts" then
    { status := 200, body := { result := .jarr (sc.hostIds.map (hostEntry sc)) } }
  else if method = "web.get_host_status" then
    match params with
    | [.jstr id] =>
      { status := 200,
        body := { result := .jarr [.jstr id, .jstr (sc.statusOf id), .jstr (sc.versionOf id)] } }
    | _ => { status := 500 }
  else if method = "web.start_daemon" then
    match params with
    | [.jstr id] =>
      if sc.startOk id then { status := 200, body := { result := .jbool true } }
      else { status := 500 }
    | _ => { status := 500 }
  else if method = "web.connect" then
    match params with
    | [.jstr id] =>
      if sc.connectOk id then { status := 200, body := { result := .jbool true } }
      else { status := 500 }
    | _ => { status := 500 }
  else { status := 200, body := { result := .jbool true } }

/-- Claim-shaped success condition for one host: Connected needs nothing,
Online needs the connect RPC, Offline needs start then connect, and any
other status fails. -/
def hostSucceeds (sc : DaemonScenario) (id : String) : Bool :=
  if sc.statusOf id = "Connected" then true
  else if sc.statusOf id = "Online" then sc.connectOk id
  else if sc.statusOf id = "Offline" then sc.startOk id && sc.connectOk id
  else false

/-- The transport failure of a refused scenario RPC. -/
def err500 : Err := .network "HTTP error! status: 500" (some 500)

/-- Claim-shaped error recorded for a failing host: the unexpected-status
error names the status, the others wrap the underlying RPC failure. -/
def attemptErrSpec (sc : DaemonScenario) (id : String) : Err :=
  if sc.statusOf id = "Online" then .daemonErr "Failed to connect to daemon" (some err500)
  else if sc.statusOf id = "Offline" then
    (if sc.startOk id then .daemonErr "Failed to connect to daemon" (some err500)
     else .daemonErr "Failed to start daemon" (some err500))
  else .daemonErr ("Unknown daemon status: " ++ sc.statusOf id) none

/-- The daemon info resolved for a succeeding host. -/
def diSpec (sc : DaemonScenario) (id : String) : DaemonInfo :=
  { status := .jstr (sc.statusOf id)
    port := .jnum (sc.portOf id)
    ip := .jstr (sc.ipOf id)
    host_id := .jstr id
    version := if sc.versionOf id = "" then .jnull else .jstr (sc.versionOf id) }

/-- Claim-shaped per-host RPC schedule: always the status lookup, then no
action for Connected, connect for Online, start (and connect when start
succeeded) for Offline, nothing further for an unknown status. -/
def attemptPostsSpec (sc : DaemonScenario) (id : String) : List String :=
  "web.get_host_status" ::
    (if sc.statusOf id = "Connected" then []
     else if sc.statusOf id = "Online" then ["web.connect"]
     else if sc.statusOf id = "Offline" then
       (if sc.startOk id then ["web.start_daemon", "web.connect"] else ["web.start_daemon"])
     else [])

/-- Claim-shaped loop outcome: hosts tried in list order, first success
wins, the final failure wraps the last recorded error. -/
def connectSpecLoop (sc : DaemonScenario) : List String → Option Err → DRes DaemonInfo
  | [], lastError => .thrown (.daemonErr "Failed to connect to any daemon" lastError)
  | id :: rest, _ =>
    if hostSucceeds sc id then .ok (diSpec sc id)
    else connectSpecLoop sc rest (some (attemptErrSpec sc id))

/-- Claim-shaped overall outcome of connectToDaemon on a fresh instance. -/
def connectSpecRes (sc : DaemonScenario) : DRes DaemonInfo :=
  if sc.hostIds.isEmpty then .thrown (.daemonErr "No daemons available" none)
  else connectSpecLoop sc sc.hostIds none

/-- Claim-shaped RPC schedule of the loop. -/
def loopPostsSpec (sc : DaemonScenario) : List String → List String
  | [] => []
  | id :: rest =>
    attemptPostsSpec sc id ++ (if hostSucceeds sc id then [] else loopPostsSpec sc rest)

/-- Claim-shaped RPC schedule of connectToDaemon on a fresh instance. -/
def connectPostsSpec (sc : DaemonScenario) : List String :=
  "web.get_hosts" :: (if sc.hostIds.isEmpty then [] else loopPostsSpec sc sc.hostIds)

theorem jstr_beq (a b : String) : (JVal.jstr a == JVal.jstr b) = (a == b) := rfl

theorem findHostEntry (sc : DaemonScenario) (id : String) :
    ∀ ids : List String, id ∈ ids →
      (ids.map (hostEntry sc)).find? (fun h => h.index 0 == JVal.jstr id) =
        some (hostEntry sc id) := by
  intro ids
  induction ids with
  | nil => intro h; cases h
  | cons id0 rest ih =>
    intro hmem
    by_cases h0 : (id0 == id) = true
    · have hid : id0 = id := by simpa using h0
      subst hid
      rw [List.map_cons, List.find?_cons_of_pos]
      simp [hostEntry, JVal.index, jstr_beq]
    · have hne : (id0 == id) = false := by
        cases hb : (id0 == id)
        · rfl
        · exact absurd hb h0
      have hmem2 : id ∈ rest := by
        rcases List.mem_cons.mp hmem with h | h
        · subst h; simp at hne
        · exact h
      rw [List.map_cons, List.find?_cons_of_neg]
      · exact ih hmem2
      · simp [hostEntry, JVal.index, jstr_beq, hne]

theorem srvD_getHosts (sc : DaemonScenario) (fuel : Nat) (st : AuthState) :
    exec (srvDaemon sc) (fuel + 1) (.request "web.get_hosts" [] false 0) st =
      ⟨.payload { result := .jarr (sc.hostIds.map (hostEntry sc)) }, st,
        [("web.get_hosts", [])]⟩ := by
  have h := exec_request_success (srvDaemon sc) fuel "web.get_hosts" [] false 0 st
    { status := 200, body := { result := .jarr (sc.hostIds.map (hostEntry sc)) } } rfl rfl rfl rfl
  rw [extractSessionData_none st _ rfl rfl] at h
  exact h

theorem srvD_hostStatus (sc : DaemonScenario) (fuel : Nat) (st : AuthState) (id : String) :
    exec (srvDaemon sc) (fuel + 1) (.request "web.get_host_status" [.jstr id] false 0) st =
      ⟨.payload { result := .jarr [.jstr id, .jstr (sc.statusOf id), .jstr (sc.versionOf id)] },
        st, [("web.get_host_status", [.jstr id])]⟩ := by
  have h := exec_request_success (srvDaemon sc) fuel "web.get_host_status" [.jstr id] false 0 st
    { status := 200,
      body := { result := .jarr [.jstr id, .jstr (sc.statusOf id), .jstr (sc.versionOf id)] } }
    rfl rfl rfl rfl
  rw [extractSessionData_none st _ rfl rfl] at h
  exact h

theorem srvD_start_ok (sc : DaemonScenario) (fuel : Nat) (st : AuthState) (id : String)
    (h : sc.startOk id = true) :
    exec (srvDaemon sc) (fuel + 1) (.request "web.start_daemon" [.jstr id] false 0) st =
      ⟨.payload { result := .jbool true }, st, [("web.start_daemon", [.jstr id])]⟩ := by
  have hr : srvDaemon sc "web.start_daemon" [.jstr id] =
      { status := 200, body := { result := .jbool true } } := by
    simp [srvDaemon, h]
  have h2 := exec_request_success (srvDaemon sc) fuel "web.start_daemon" [.jstr id] false 0 st
    { status := 200, body := { result := .jbool true } } hr rfl rfl rfl
  rw [extractSessionData_none st _ rfl rfl] at h2
  exact h2

theorem srvD_start_fail (sc : DaemonScenario) (fuel : Nat) (st : AuthState) (id : String)
    (h : sc.startOk id = false) :
    exec (srvDaemon sc) (fuel + 1) (.request "web.start_daemon" [.jstr id] false 0) st =
      ⟨.thrown err500, st, [("web.start_daemon", [.jstr id])]⟩ := by
  have hr : srvDaemon sc "web.start_daemon" [.jstr id] = { status := 500 } := by
    simp [srvDaemon, h]
  have h2 := exec_request_httpError (srvDaemon sc) fuel "web.start_daemon" [.jstr id] false 0 st
    { status := 500 } hr rfl (by decide)
  rw [extractSessionData_none st _ rfl rfl] at h2
  exact h2

theorem srvD_connect_ok (sc : DaemonScenario) (fuel : Nat) (st : AuthState) (id : String)
    (h : sc.connectOk id = true) :
    exec (srvDaemon sc) (fuel + 1) (.request "web.connect" [.jstr id] false 0) st =
      ⟨.payload { result := .jbool true }, st, [("web.connect", [.jstr id])]⟩ := by
  have hr : srvDaemon sc "web.connect" [.jstr id] =
      { status := 200, body := { result := .jbool true } } := by
    simp [srvDaemon, h]
  have h2 := exec_request_success (srvDaemon sc) fuel "web.connect" [.jstr id] false 0 st
    { status := 200, body := { result := .jbool true } } hr rfl rfl rfl
  rw [extractSessionData_none st _ rfl rfl] at h2
  exact h2

theorem srvD_connect_fail (sc : DaemonScenario) (fuel : Nat) (st : AuthState) (id : String)
    (h : sc.connectOk id = false) :
    exec (srvDaemon sc) (fuel + 1) (.request "web.connect" [.jstr id] false 0) st =
      ⟨.thrown err500, st, [("web.connect", [.jstr id])]⟩ := by
  have hr : srvDaemon sc "web.connect" [.jstr id] = { status := 500 } := by
    simp [srvDaemon, h]
  have h2 := exec_request_httpError (srvDaemon sc) fuel "web.connect" [.jstr id] false 0 st
    { status := 500 } hr rfl (by decide)
  rw [extractSessionData_none st _ rfl rfl] at h2
  exact h2

theorem getHostStatusD (sc : DaemonScenario) (fuel : Nat) (st : AuthState) (dst : DaemonState)
    (id : String) (hmem : id ∈ sc.hostIds)
    (hhosts : dst.daemonHosts = sc.hostIds.map (hostEntry sc)) :
    getHostStatus (srvDaemon sc) (fuel + 1) st dst (.jstr id) =
      ⟨.ok { status := .jstr (sc.statusOf id), version := .jstr (sc.versionOf id),
             hostId := .jstr id, host := some (hostEntry sc id) },
        st, dst, [("web.get_host_status", [.jstr id])]⟩ := by
  have hfind := findHostEntry sc id sc.hostIds hmem
  simp only [JVal.index, List.get?_eq_getElem?] at hfind
  simp [getHostStatus, srvD_hostStatus, JVal.truthy, JVal.index, hhosts, -List.find?_map]
  exact hfind

theorem attemptD (sc : DaemonScenario) (fuel : Nat) (st : AuthState) (dst : DaemonState)
    (id : String) (hmem : id ∈ sc.hostIds)
    (hhosts : dst.daemonHosts = sc.hostIds.map (hostEntry sc)) :
    attemptDaemonConnection (srvDaemon sc) (fuel + 1) st dst (hostEntry sc id) =
      ⟨(if hostSucceeds sc id then .ok (diSpec sc id) else .thrown (attemptErrSpec sc id)),
        st, dst,
        (attemptPostsSpec sc id).map (fun m => (m, [JVal.jstr id]))⟩ := by
  have hidx : (hostEntry sc id).index 0 = .jstr id := by simp [hostEntry, JVal.index]
  have hst := getHostStatusD sc fuel st dst id hmem hhosts
  by_cases hcon : sc.statusOf id = "Connected"
  · simp [attemptDaemonConnection, hidx, hst, jstr_beq, hcon, hostSucceeds, diSpec,
      buildDaemonInfo, hostEntry, JVal.index, JVal.truthy, attemptPostsSpec]
  · by_cases hon : sc.statusOf id = "Online"
    · by_cases hc : sc.connectOk id = true
      · simp [attemptDaemonConnection, hidx, hst, jstr_beq, hcon, hon, connectRpc,
          srvD_connect_ok sc fuel st id hc, hostSucceeds, hc, diSpec, buildDaemonInfo,
          hostEntry, JVal.index, JVal.truthy, attemptPostsSpec]
      · have hc2 : sc.connectOk id = false := by
          cases hb : sc.connectOk id
          · rfl
          · exact absurd hb hc
        simp [attemptDaemonConnection, hidx, hst, jstr_beq, hcon, hon, connectRpc,
          srvD_connect_fail sc fuel st id hc2, hostSucceeds, hc2, attemptErrSpec,
          attemptPostsSpec]
    · by_cases hoff : sc.statusOf id = "Offline"
      · by_cases hs : sc.startOk id = true
        · by_cases hc : sc.connectOk id = true
          · simp [attemptDaemonConnection, hidx, hst, jstr_beq, hcon, hon, hoff,
              startDaemon, connectRpc, srvD_start_ok sc fuel st id hs,
              srvD_connect_ok sc fuel st id hc, hostSucceeds, hs, hc, diSpec,
              buildDaemonInfo, hostEntry, JVal.index, JVal.truthy, attemptPostsSpec]
          · have hc2 : sc.connectOk id = false := by
              cases hb : sc.connectOk id
              · rfl
              · exact absurd hb hc
            simp [attemptDaemonConnection, hidx, hst, jstr_beq, hcon, hon, hoff,
              startDaemon, connectRpc, srvD_start_ok sc fuel st id hs,
              srvD_connect_fail sc fuel st id hc2, hostSucceeds, hs, hc2,
              attemptErrSpec, attemptPostsSpec]
        · have hs2 : sc.startOk id = false := by
            cases hb : sc.startOk id
            · rfl
            · exact absurd hb hs
          simp [attemptDaemonConnection, hidx, hst, jstr_beq, hcon, hon, hoff,
            startDaemon, srvD_start_fail sc fuel st id hs2, hostSucceeds, hs2,
            attemptErrSpec, attemptPostsSpec]
      · simp [attemptDaemonConnection, hidx, hst, jstr_beq, hcon, hon, hoff,
          hostSucceeds, attemptErrSpec, attemptPostsSpec, JVal.display]

theorem postMethods_nil : postMethods [] = [] := rfl

theorem postMethods_cons (q : String × List JVal) (ps : List (String × List JVal)) :
    postMethods (q :: ps) = q.1 :: postMethods ps := rfl

theorem postMethods_mapConst (ms : List String) (ps : List JVal) :
    postMethods (ms.map (fun m => (m, ps))) = ms := by
  induction ms with
  | nil => rfl
  | cons m rest ih => rw [List.map_cons, postMethods_cons, ih]

theorem postMethods_append (a b : List (String × List JVal)) :
    postMethods (a ++ b) = postMethods a ++ postMethods b := by
  simp [postMethods]

theorem connectLoopD (sc : DaemonScenario) (fuel : Nat) :
    ∀ (ids : List String) (lastErr : Option Err) (st : AuthState) (dst : DaemonState),
      (∀ id ∈ ids, id ∈ sc.hostIds) →
      dst.daemonHosts = sc.hostIds.map (hostEntry sc) →
      (connectLoop (srvDaemon sc) (fuel + 1) (ids.map (hostEntry sc)) lastErr st dst).res =
        connectSpecLoop sc ids lastErr ∧
      postMethods
        (connectLoop (srvDaemon sc) (fuel + 1) (ids.map (hostEntry sc)) lastErr st dst).posts =
        loopPostsSpec sc ids := by
  intro ids
  induction ids with
  | nil =>
    intro lastErr st dst hmem hhosts
    simp [connectLoop, connectSpecLoop, loopPostsSpec, postMethods]
  | cons id rest ih =>
    intro lastErr st dst hmem hhosts
    have hmem0 : id ∈ sc.hostIds := hmem id (List.mem_cons_self id rest)
    have hat := attemptD sc fuel st dst id hmem0 hhosts
    by_cases hsuc : hostSucceeds sc id = true
    · constructor
      · simp [connectLoop, hat, hsuc, connectSpecLoop]
      · simp [connectLoop, hat, hsuc, loopPostsSpec, postMethods_mapConst]
    · have hsuc2 : hostSucceeds sc id = false := by
        cases hb : hostSucceeds sc id
        · rfl
        · exact absurd hb hsuc
      have hrest := ih (some (attemptErrSpec sc id)) st dst
        (fun i hi => hmem i (List.mem_cons_of_mem id hi)) hhosts
      constructor
      · simp [connectLoop, hat, hsuc2, connectSpecLoop, hrest.1]
      · simp [connectLoop, hat, hsuc2, loopPostsSpec, postMethods_append,
          postMethods_mapConst, hrest.2]

/-- C8: on a fresh DelugeDaemon, connectToDaemon first fetches the host list
and then tries the hosts one at a time in list order with first success
winning; a Connected host resolves with no further RPC, an Online host
issues web.connect, an Offline host issues web.start_daemon and then
web.connect, and any other status yields an error naming the unexpected
status; a failing host is recorded and the next host attempted, and only
when every host has failed does the call throw the wrapping DaemonError
carrying the last underlying error. The run equals the claim-shaped
first-success recursion connectSpecRes and the RPC schedule equals
connectPostsSpec, for every scenario. -/
theorem C8_connectToDaemon (sc : DaemonScenario) (fuel : Nat) (st : AuthState) :
    (connectToDaemon (srvDaemon sc) (fuel + 1) st initialDaemonState).res = connectSpecRes sc ∧
    postMethods (connectToDaemon (srvDaemon sc) (fuel + 1) st initialDaemonState).posts =
      connectPostsSpec sc := by
  have hget : getDaemons (srvDaemon sc) (fuel + 1) st initialDaemonState =
      ⟨.ok (sc.hostIds.map (hostEntry sc)), st,
        { initialDaemonState with daemonHosts := sc.hostIds.map (hostEntry sc) },
        [("web.get_hosts", [])]⟩ := by
    simp [getDaemons, srvD_getHosts, hostsOfResult]
  have hcf : connectToDaemon (srvDaemon sc) (fuel + 1) st initialDaemonState =
      connectFresh (srvDaemon sc) (fuel + 1) st initialDaemonState := rfl
  by_cases hemp : sc.hostIds.isEmpty = true
  · have hnil : sc.hostIds = [] := by
      cases h : sc.hostIds
      · rfl
      · rw [h] at hemp; simp at hemp
    constructor
    · rw [hcf]
      simp [connectFresh, hget, hnil, hemp, connectSpecRes]
    · rw [hcf]
      simp [connectFresh, hget, hnil, hemp, connectPostsSpec,
        postMethods_cons, postMethods_nil]
  · have hemp2 : sc.hostIds.isEmpty = false := by
      cases hb : sc.hostIds.isEmpty
      · rfl
      · exact absurd hb hemp
    have hne2 : ¬ sc.hostIds = [] := by
      intro h
      rw [h] at hemp2
      simp at hemp2
    have hloop := connectLoopD sc fuel sc.hostIds none st
      { daemonInfo := initialDaemonState.daemonInfo
        daemonHosts := sc.hostIds.map (hostEntry sc)
        connectAttempts := initialDaemonState.connectAttempts }
      (fun i hi => hi) rfl
    constructor
    · rw [hcf]
      simp [connectFresh, hget, hemp2, hne2, connectSpecRes, hloop.1]
    · rw [hcf]
      simp [connectFresh, hget, hemp2, hne2, connectPostsSpec,
        postMethods_append, postMethods_cons, postMethods_nil, hloop.2]

/-- Whatever the server answers, a request call with fuel posts its own
method and parameters first. -/
theorem exec_request_firstPost (srv : Server) (fuel : Nat) (method : String)
    (params : List JVal) (silent : Bool) (retryAttempt : Nat) (st : AuthState) :
    ∃ rest, (exec srv (fuel + 1) (.request method params silent retryAttempt) st).posts =
      (method, params) :: rest := by
  simp only [exec]
  repeat' split
  all_goals exact ⟨_, rfl⟩

/-- On a freshly constructed DelugeDaemon, connectToDaemon posts
web.get_hosts first: fresh host discovery does run there. -/
theorem connectToDaemon_fresh_firstPost (srv : Server) (fuel : Nat) (st : AuthState) :
    ((connectToDaemon srv (fuel + 1) st initialDaemonState).posts).head? =
      some ("web.get_hosts", []) := by
  have hcf : connectToDaemon srv (fuel + 1) st initialDaemonState =
      connectFresh srv (fuel + 1) st initialDaemonState := rfl
  obtain ⟨rest, hrest⟩ := exec_request_firstPost srv fuel "web.get_hosts" [] false 0 st
  rw [hcf]
  cases hx : exec srv (fuel + 1) (.request "web.get_hosts" [] false 0) st with
  | mk o s2 ps =>
    rw [hx] at hrest
    simp only [] at hrest
    cases o with
    | payload p =>
      by_cases he : (hostsOfResult p.result).isEmpty = true
      · simp [connectFresh, getDaemons, hx, he, hrest]
      · simp [connectFresh, getDaemons, hx, he, hrest]
    | thrown e => simp [connectFresh, getDaemons, hx, hrest]
    | boolRes b => simp [connectFresh, getDaemons, hx, hrest]
    | fuelOut => simp [connectFresh, getDaemons, hx, hrest]

/-- A cached daemon info for the C10 scenario. -/
def c10di : DaemonInfo :=
  { status := .jstr "Connected", port := .jnum 58846, ip := .jstr "127.0.0.1",
    host_id := .jstr "h1", version := .jstr "2.1.1" }

/-- A DelugeDaemon instance state whose daemonInfo is already resolved. -/
def c10dst : DaemonState :=
  { daemonInfo := some c10di, daemonHosts := [], connectAttempts := 1 }

/-- A server for the C10 witness (it is never consulted on the cached path). -/
def c10srv : Server := fun _ _ => { status := 200 }

/-- C10: once a DelugeDaemon instance has a resolved daemonInfo with a set
host_id, connectToDaemon returns the cached record immediately: no RPC is
issued (the post trace is empty), the session and instance state are
unchanged, and the result is the cached DaemonInfo; on a freshly
constructed instance the same call instead begins fresh host discovery,
posting web.get_hosts first. -/
theorem C10_cached_daemonInfo (srv : Server) (fuel : Nat) (st : AuthState)
    (dst : DaemonState) (di : DaemonInfo)
    (hdi : dst.daemonInfo = some di) (hid : di.host_id.truthy = true) :
    connectToDaemon srv fuel st dst = ⟨.ok di, st, dst, []⟩ ∧
    ((connectToDaemon srv (fuel + 1) st initialDaemonState).posts).head? =
      some ("web.get_hosts", []) := by
  constructor
  · simp [connectToDaemon, hdi, hid]
  · exact connectToDaemon_fresh_firstPost srv fuel st

/-- Witness for C10 at a concrete cached instance and server. -/
theorem C10_witness :
    connectToDaemon c10srv 3 {} c10dst = ⟨.ok c10di, {}, c10dst, []⟩ ∧
    ((connectToDaemon c10srv (3 + 1) {} initialDaemonState).posts).head? =
      some ("web.get_hosts", []) :=
  C10_cached_daemonInfo c10srv 3 {} c10dst c10di rfl rfl

end DelugeFlow
